import Mathlib

/-!
# DeWiz (DegenWizard) — verification of the trade-lifecycle / settlement engine

Shallow embedding, in Lean 4, of the persistent-store operations
(`src/database/index.js`), the payout engine (`src/services/payouts.js`)
and the tick scheduler (`src/services/scheduler.js`) of the DeWiz Discord
trading bot, together with proofs about the claims of its specification.

Modelling conventions:
* SQLite rows become Lean structures; the whole database (plus the
  single-row `runtime_state` table) becomes the structure `Db`.
* JS numbers used for money / P&L are modelled as `ℚ`; row ids and
  counters as `ℕ`; millisecond timestamps as `ℤ`.
* `better-sqlite3` is synchronous and transactions are serialized, so a
  transaction is one atomic Lean function `Db → Db` (or `Db → α × Db`).
* Every external collaborator (blockchain RPC, Polymarket gateway, the
  Discord surface, the AI signal source, `Math.random`, timezone
  formatting) is an input: a field of the `World` oracle record.
  Discord *sends* never touch the store and are dropped; Discord *reads*
  (reaction snapshots, message fetches) are `World` fields.
* Status strings (`'voting'`, `'executed'`, …) become closed inductives.
-/

namespace DeWiz

/-- Trade status strings from the `trades.status` column. -/
inductive TradeStatus
  | voting
  | executed
  | resolved
  deriving DecidableEq, Repr

/-- Settlement status strings from the `settlements.status` column. -/
inductive SettlementStatus
  | pending
  | distributing
  | completed
  | failed
  deriving DecidableEq, Repr

/-- Payout status strings from the `payouts.status` column. -/
inductive PayoutStatus
  | pending
  | sent
  | failed
  deriving DecidableEq, Repr

/-- A vote / executed position direction (`'UP'` / `'DOWN'`). -/
inductive Direction
  | UP
  | DOWN
  deriving DecidableEq, Repr

/-- A row of the `users` table. -/
structure User where
  discord_id : String
  discord_username : Option String
  wallet_address : Option String
  reputation_weight : ℚ
  current_streak : ℕ
  best_streak : ℕ
  deriving DecidableEq, Repr

/-- A row of the `trades` table. -/
structure Trade where
  id : ℕ
  settlement_id : Option ℕ
  asset : String
  polymarket_market_id : String
  proposal_message_id : Option ℕ
  clob_order_id : Option String
  executed_position : Option Direction
  pnl : Option ℚ
  resolution_time : Option ℤ
  voting_ends_at : ℤ
  status : TradeStatus
  executed_at : Option ℤ
  resolved_at : Option ℤ
  deriving DecidableEq, Repr

/-- A row of the `predictions` table. -/
structure Prediction where
  user_id : String
  trade_id : ℕ
  prediction : Direction
  was_correct : Option Bool
  snapshot_at : Option ℤ
  deriving DecidableEq, Repr

/-- A row of the `settlements` table. -/
structure Settlement where
  id : ℕ
  status : SettlementStatus
  triggered_at : ℤ
  error_message : Option String
  deriving DecidableEq, Repr

/-- The stored serialized unsigned-transaction JSON blob
(`payouts.tx_request`), as produced by `serializeTxRequest`:
all required fields present, `type` normalized to `0` or `2`,
numeric fields persisted as decimal strings (modelled as `ℤ`). -/
structure StoredTx where
  toAddr : String
  callData : String
  value : ℤ
  nonce : ℤ
  gasLimit : ℤ
  chainId : ℤ
  txType : ℤ
  gasPrice : Option ℤ
  maxFeePerGas : Option ℤ
  maxPriorityFeePerGas : Option ℤ
  deriving DecidableEq, Repr

/-- An in-memory ethers transaction request (`txRequest`), an untyped bag
of optional fields before validation by `serializeTxRequest`. -/
structure TxRequest where
  toAddr : Option String
  callData : Option String
  value : Option ℤ
  nonce : Option ℤ
  gasLimit : Option ℤ
  chainId : Option ℤ
  txType : Option ℤ
  gasPrice : Option ℤ
  maxFeePerGas : Option ℤ
  maxPriorityFeePerGas : Option ℤ
  deriving DecidableEq, Repr

/-- A row of the `payouts` table. -/
structure Payout where
  id : ℕ
  user_id : String
  settlement_id : Option ℕ
  amount : ℚ
  status : PayoutStatus
  tx_hash : Option String
  tx_request : Option StoredTx
  rank : ℕ
  retry_count : ℕ
  last_retry_at : Option ℤ
  error_message : Option String
  deriving DecidableEq, Repr

/-- The whole persistent store: the five tables plus the singleton
`runtime_state` row (inlined as four fields) and the `AUTOINCREMENT`
counters of the three tables that allocate ids. -/
structure Db where
  users : List User
  trades : List Trade
  predictions : List Prediction
  settlements : List Settlement
  payouts : List Payout
  emergency_stopped : Bool
  last_morning_trade_date : String
  next_hourly_trade_at : ℤ
  last_weekly_payout_date : String
  nextTradeId : ℕ
  nextSettlementId : ℕ
  nextPayoutId : ℕ
  deriving DecidableEq, Repr

/-- The freshly initialized database (`initializeDatabase`): empty tables,
`runtime_state` seeded with `emergency_stopped = 0` and the epoch defaults. -/
def initialDb : Db :=
  { users := []
    trades := []
    predictions := []
    settlements := []
    payouts := []
    emergency_stopped := false
    last_morning_trade_date := "1970-01-01"
    next_hourly_trade_at := 0
    last_weekly_payout_date := "1970-01-01"
    nextTradeId := 1
    nextSettlementId := 1
    nextPayoutId := 1 }

/-! ## Numeric helpers (JS arithmetic on ℚ) -/

/-- JavaScript `Math.round`: round half toward +∞, i.e. `⌊x + 1/2⌋`. -/
def jsRound (q : ℚ) : ℤ := ⌊q + 1 / 2⌋

/-- JavaScript `Math.floor` on a rational. -/
def jsFloor (q : ℚ) : ℤ := ⌊q⌋

/-- `floorToCents` from `src/services/payouts.js`:
`Math.floor(amount * 100) / 100`. -/
def floorToCents (amount : ℚ) : ℚ := (jsFloor (amount * 100) : ℚ) / 100

/-! ## `calculatePayoutAmounts` (src/services/payouts.js lines 61–89) -/

/-- The configured 3-tier payout distribution
(`CONFIG.payouts.distribution`). -/
structure Distribution where
  first : ℚ
  second : ℚ
  third : ℚ
  deriving DecidableEq, Repr

/-- Add `remainder` to the head of a list of cent amounts
(models `amounts[0] += remainder`). -/
def bumpHead (remainder : ℤ) : List ℤ → List ℤ
  | [] => []
  | a :: rest => (a + remainder) :: rest

/-- `calculatePayoutAmounts(totalPayout, distribution, winnerCount)`:
integer-cent split of `totalPayout` over the first `winnerCount` weights,
with the whole rounding remainder added to the first-place amount.
Returns dollar amounts. -/
def calculatePayoutAmounts (totalPayout : ℚ) (distribution : Distribution)
    (winnerCount : ℕ) : List ℚ :=
  if winnerCount ≤ 0 then []
  else
    let weights := [distribution.first, distribution.second, distribution.third]
    let activeWeights := weights.take winnerCount
    let weightSum := activeWeights.foldl (· + ·) 0
    if weightSum ≤ 0 then []
    else
      let totalCents : ℤ := jsRound (totalPayout * 100)
      let amounts := activeWeights.map (fun weight => jsFloor ((totalCents : ℚ) * weight / weightSum))
      let allocated := amounts.foldl (· + ·) 0
      let remainder := totalCents - allocated
      let amounts' := if remainder ≠ 0 then bumpHead remainder amounts else amounts
      amounts'.map (fun cents : ℤ => (cents : ℚ) / 100)

/-- The `weightSum` computed inside `calculatePayoutAmounts` for
`winnerCount = n`. -/
def activeWeightSum (d : Distribution) (n : ℕ) : ℚ :=
  ([d.first, d.second, d.third].take n).foldl (· + ·) 0

/-- `floor(totalCents × weight_i / sumOfActiveWeights)`: the cent amount
the code assigns to tier `i` before remainder adjustment. -/
def tierFloorCents (d : Distribution) (n : ℕ) (c : ℤ) (i : ℕ) : ℤ :=
  jsFloor ((c : ℚ) * ([d.first, d.second, d.third].getD i 0) / activeWeightSum d n)

/-- The rounding remainder `totalCents - allocated` that the code adds to
the first-place amount. -/
def payoutRemainder (d : Distribution) (n : ℕ) (c : ℤ) : ℤ :=
  c - ((List.range n).map (tierFloorCents d n c)).foldl (· + ·) 0

/-! ## Generic list helpers (insertion sort modelling SQL ORDER BY) -/

/-- Insert `x` into `l` keeping elements for which `le x y` fails in front. -/
def insertLe {α : Type} (le : α → α → Bool) (x : α) : List α → List α
  | [] => [x]
  | y :: ys => if le x y then x :: y :: ys else y :: insertLe le x ys

/-- Stable insertion sort by the Bool relation `le`. -/
def sortLe {α : Type} (le : α → α → Bool) : List α → List α
  | [] => []
  | x :: xs => insertLe le x (sortLe le xs)

/-! ## Store operations (src/database/index.js) -/

/-- `status IN ('voting','executed')`: the trade counts as active. -/
def isActiveStatus : TradeStatus → Bool
  | .voting => true
  | .executed => true
  | .resolved => false

/-- `users.get(discordId)`. -/
def users.get (db : Db) (discordId : String) : Option User :=
  db.users.find? (fun u => u.discord_id = discordId)

/-- `users.getOrCreate(discordId, username)`: returns the (possibly
username-refreshed) row and the updated store. -/
def users.getOrCreate (db : Db) (discordId : String) (username : Option String) :
    User × Db :=
  match db.users.find? (fun u => u.discord_id = discordId) with
  | some existing =>
    if username ≠ none ∧ existing.discord_username ≠ username then
      let u' := { existing with discord_username := username }
      (u', { db with users := db.users.map (fun u =>
        if u.discord_id = discordId then { u with discord_username := username } else u) })
    else (existing, db)
  | none =>
    let u : User :=
      { discord_id := discordId
        discord_username := username
        wallet_address := none
        reputation_weight := 1 / 10
        current_streak := 0
        best_streak := 0 }
    (u, { db with users := db.users ++ [u] })

/-- `users.updateReputationWeight(discordId, weight)`. -/
def users.updateReputationWeight (db : Db) (discordId : String) (weight : ℚ) : Db :=
  { db with users := db.users.map (fun u =>
      if u.discord_id = discordId then { u with reputation_weight := weight } else u) }

/-- `users.updateStreak(discordId, current, best)`. -/
def users.updateStreak (db : Db) (discordId : String) (current best : ℕ) : Db :=
  { db with users := db.users.map (fun u =>
      if u.discord_id = discordId then
        { u with current_streak := current, best_streak := best } else u) }

/-- The `(correct_count, total_count)` aggregates of the
`getTopPredictorsForTrades` query for one user: snapshotted predictions of
that user on the given trades. -/
def predCountsFor (db : Db) (tradeIds : List ℕ) (uid : String) : ℕ × ℕ :=
  let ps := db.predictions.filter (fun p =>
    p.user_id = uid ∧ p.trade_id ∈ tradeIds ∧ p.snapshot_at ≠ none)
  (ps.countP (fun p => p.was_correct = some true), ps.length)

/-- The `ORDER BY` of `getTopPredictorsForTrades`: correct count
descending, reputation weight descending, total count descending,
discord id ascending. -/
def winnerLe (ca cb : ℕ × ℕ) (wa wb : ℚ) (ia ib : String) : Bool :=
  if ca.1 ≠ cb.1 then decide (cb.1 < ca.1)
  else if wa ≠ wb then decide (wb < wa)
  else if ca.2 ≠ cb.2 then decide (cb.2 < ca.2)
  else decide (ia < ib) || decide (ia = ib)

/-- `users.getTopPredictorsForTrades(tradeIds, limit)`: wallet-holding
users with at least one snapshotted prediction on the given trades
(the SQL inner JOIN), ranked by `winnerLe` and truncated to `limit`. -/
def users.getTopPredictorsForTrades (db : Db) (tradeIds : List ℕ) (limit : ℕ) :
    List User :=
  if tradeIds = [] then []
  else
    let eligible := db.users.filter (fun u =>
      u.wallet_address ≠ none ∧ (predCountsFor db tradeIds u.discord_id).2 ≠ 0)
    (sortLe (fun a b =>
      winnerLe (predCountsFor db tradeIds a.discord_id)
        (predCountsFor db tradeIds b.discord_id)
        a.reputation_weight b.reputation_weight
        a.discord_id b.discord_id) eligible).take limit

/-- The trade-creation parameters passed to `trades.createIfNoActive`. -/
structure CreateTradeParams where
  asset : String
  polymarket_market_id : String
  resolution_time : Option ℤ
  voting_ends_at : ℤ
  deriving DecidableEq, Repr

/-- `trades.createIfNoActive(params)`: one atomic transaction that
re-checks "no active trade" and "no incomplete settlement" and only then
inserts the new `voting` trade row. Returns the created row (or `null`)
and the post-transaction store. -/
def trades.createIfNoActive (db : Db) (p : CreateTradeParams) : Option Trade × Db :=
  if db.trades.any (fun t => isActiveStatus t.status) then (none, db)
  else if db.settlements.any (fun s => s.status ≠ SettlementStatus.completed) then (none, db)
  else
    let t : Trade :=
      { id := db.nextTradeId
        settlement_id := none
        asset := p.asset
        polymarket_market_id := p.polymarket_market_id
        proposal_message_id := none
        clob_order_id := none
        executed_position := none
        pnl := none
        resolution_time := p.resolution_time
        voting_ends_at := p.voting_ends_at
        status := .voting
        executed_at := none
        resolved_at := none }
    (some t, { db with trades := db.trades ++ [t], nextTradeId := db.nextTradeId + 1 })

/-- `trades.getActive()`. -/
def trades.getActive (db : Db) : Option Trade :=
  db.trades.find? (fun t => isActiveStatus t.status)

/-- `trades.getLastResolved()`: resolved trades ordered by `resolved_at`
descending, first row. -/
def trades.getLastResolved (db : Db) : Option Trade :=
  (sortLe (fun a b => decide ((b.resolved_at.getD 0) ≤ (a.resolved_at.getD 0)))
    (db.trades.filter (fun t => t.status = TradeStatus.resolved))).head?

/-- `trades.getById(id)`. -/
def trades.getById (db : Db) (id : ℕ) : Option Trade :=
  db.trades.find? (fun t => t.id = id)

/-- `trades.updateMessageId(id, messageId)`. -/
def trades.updateMessageId (db : Db) (id : ℕ) (messageId : ℕ) : Db :=
  { db with trades := db.trades.map (fun t =>
      if t.id = id then { t with proposal_message_id := some messageId } else t) }

/-- `trades.getVotingTrades()`. -/
def trades.getVotingTrades (db : Db) : List Trade :=
  sortLe (fun a b => decide (a.voting_ends_at ≤ b.voting_ends_at))
    (db.trades.filter (fun t => t.status = TradeStatus.voting))

/-- `trades.updateOrderId(id, orderId)`. -/
def trades.updateOrderId (db : Db) (id : ℕ) (orderId : String) : Db :=
  { db with trades := db.trades.map (fun t =>
      if t.id = id then { t with clob_order_id := some orderId } else t) }

/-- `trades.execute(id, position)`: set the executed position, move the
row to `executed` and stamp `executed_at`. -/
def trades.execute (db : Db) (id : ℕ) (position : Direction) (now : ℤ) : Db :=
  { db with trades := db.trades.map (fun t =>
      if t.id = id then
        { t with executed_position := some position
                 status := .executed
                 executed_at := some now } else t) }

/-- `trades.resolve(id, pnl)`: record P&L, move the row to `resolved`
and stamp `resolved_at`. -/
def trades.resolve (db : Db) (id : ℕ) (pnl : ℚ) (now : ℤ) : Db :=
  { db with trades := db.trades.map (fun t =>
      if t.id = id then
        { t with pnl := some pnl
                 status := .resolved
                 resolved_at := some now } else t) }

/-- `trades.getReadyForResolution()`: executed trades whose
`resolution_time` is set and has passed. -/
def trades.getReadyForResolution (db : Db) (now : ℤ) : List Trade :=
  sortLe (fun a b => decide ((a.resolution_time.getD 0) ≤ (b.resolution_time.getD 0)))
    (db.trades.filter (fun t =>
      t.status = TradeStatus.executed ∧ t.resolution_time ≠ none ∧
        t.resolution_time.getD 0 ≤ now))

/-- `trades.getUnsettledPnl()`: `SUM(pnl)` over resolved, unsettled
trades (SQL `SUM` skips NULLs; `COALESCE` makes the empty sum 0). -/
def trades.getUnsettledPnl (db : Db) : ℚ :=
  ((db.trades.filter (fun t =>
      t.status = TradeStatus.resolved ∧ t.settlement_id = none)).map
    (fun t => t.pnl.getD 0)).sum

/-- `trades.getUnsettledTrades()`. -/
def trades.getUnsettledTrades (db : Db) : List Trade :=
  sortLe (fun a b => decide ((a.resolved_at.getD 0) ≤ (b.resolved_at.getD 0)))
    (db.trades.filter (fun t =>
      t.status = TradeStatus.resolved ∧ t.settlement_id = none))

/-- `trades.linkToSettlement(tradeIds, settlementId)`. -/
def trades.linkToSettlement (db : Db) (tradeIds : List ℕ) (settlementId : ℕ) : Db :=
  if tradeIds = [] then db
  else
    { db with trades := db.trades.map (fun t =>
        if t.id ∈ tradeIds then { t with settlement_id := some settlementId } else t) }

/-- `trades.deleteTrade(id)`: one transaction deleting the trade's
predictions and then the trade row itself. -/
def trades.deleteTrade (db : Db) (id : ℕ) : Db :=
  { db with predictions := db.predictions.filter (fun p => p.trade_id ≠ id)
            trades := db.trades.filter (fun t => t.id ≠ id) }

/-- `predictions.upsert(userId, tradeId, prediction)`: live (pre-snapshot)
vote insert-or-update; on conflict only the direction is replaced. -/
def predictions.upsert (db : Db) (userId : String) (tradeId : ℕ)
    (dir : Direction) : Db :=
  if db.predictions.any (fun p => p.user_id = userId ∧ p.trade_id = tradeId) then
    { db with predictions := db.predictions.map (fun p =>
        if p.user_id = userId ∧ p.trade_id = tradeId then
          { p with prediction := dir } else p) }
  else
    { db with predictions := db.predictions ++
        [{ user_id := userId, trade_id := tradeId, prediction := dir
           was_correct := none, snapshot_at := none }] }

/-- `predictions.upsertWithSnapshot(userId, tradeId, prediction, snapshotAt)`. -/
def predictions.upsertWithSnapshot (db : Db) (userId : String) (tradeId : ℕ)
    (dir : Direction) (snapshotAt : ℤ) : Db :=
  if db.predictions.any (fun p => p.user_id = userId ∧ p.trade_id = tradeId) then
    { db with predictions := db.predictions.map (fun p =>
        if p.user_id = userId ∧ p.trade_id = tradeId then
          { p with prediction := dir, snapshot_at := some snapshotAt } else p) }
  else
    { db with predictions := db.predictions ++
        [{ user_id := userId, trade_id := tradeId, prediction := dir
           was_correct := none, snapshot_at := some snapshotAt }] }

/-- `predictions.getVoteCounts(tradeId)`: `(up, down)` over snapshotted
predictions of the trade. -/
def predictions.getVoteCounts (db : Db) (tradeId : ℕ) : ℕ × ℕ :=
  let ps := db.predictions.filter (fun p =>
    p.trade_id = tradeId ∧ p.snapshot_at ≠ none)
  (ps.countP (fun p => p.prediction = Direction.UP),
   ps.countP (fun p => p.prediction = Direction.DOWN))

/-- `predictions.getSnapshottedByTrade(tradeId)`. -/
def predictions.getSnapshottedByTrade (db : Db) (tradeId : ℕ) : List Prediction :=
  db.predictions.filter (fun p => p.trade_id = tradeId ∧ p.snapshot_at ≠ none)

/-- `predictions.markCorrectness(tradeId, correctPosition)`. -/
def predictions.markCorrectness (db : Db) (tradeId : ℕ) (correct : Direction) : Db :=
  { db with predictions := db.predictions.map (fun p =>
      if p.trade_id = tradeId ∧ p.snapshot_at ≠ none then
        { p with was_correct := some (decide (p.prediction = correct)) } else p) }

/-- `predictions.deleteNonSnapshotted(tradeId)`. -/
def predictions.deleteNonSnapshotted (db : Db) (tradeId : ℕ) : Db :=
  { db with predictions := db.predictions.filter (fun p =>
      ¬ (p.trade_id = tradeId ∧ p.snapshot_at = none)) }

/-- `payouts.create(userId, amount, rank, settlementId)`. -/
def payouts.create (db : Db) (userId : String) (amount : ℚ) (rank : ℕ)
    (settlementId : Option ℕ) : Payout × Db :=
  let p : Payout :=
    { id := db.nextPayoutId
      user_id := userId
      settlement_id := settlementId
      amount := amount
      status := .pending
      tx_hash := none
      tx_request := none
      rank := rank
      retry_count := 0
      last_retry_at := none
      error_message := none }
  (p, { db with payouts := db.payouts ++ [p], nextPayoutId := db.nextPayoutId + 1 })

/-- The shared `UPDATE payouts ... WHERE id = ?` shape: apply `f` to the
row(s) with the given id. -/
def updatePayoutRow (db : Db) (id : ℕ) (f : Payout → Payout) : Db :=
  { db with payouts := db.payouts.map (fun p => if p.id = id then f p else p) }

/-- `payouts.updateStatus(id, status)`. -/
def payouts.updateStatus (db : Db) (id : ℕ) (status : PayoutStatus) : Db :=
  updatePayoutRow db id (fun p => { p with status := status })

/-- `payouts.updateTxHash(id, txHash)`. -/
def payouts.updateTxHash (db : Db) (id : ℕ) (txHash : Option String) : Db :=
  updatePayoutRow db id (fun p => { p with tx_hash := txHash })

/-- `payouts.updateTxRequest(id, txRequest)`. -/
def payouts.updateTxRequest (db : Db) (id : ℕ) (txRequest : Option StoredTx) : Db :=
  updatePayoutRow db id (fun p => { p with tx_request := txRequest })

/-- `payouts.getById(id)`. -/
def payouts.getById (db : Db) (id : ℕ) : Option Payout :=
  db.payouts.find? (fun p => p.id = id)

/-- `payouts.getFailedBySettlement(settlementId)`. -/
def payouts.getFailedBySettlement (db : Db) (settlementId : ℕ) : List Payout :=
  db.payouts.filter (fun p =>
    p.settlement_id = some settlementId ∧ p.status = PayoutStatus.failed)

/-- `payouts.getBySettlement(settlementId)`. -/
def payouts.getBySettlement (db : Db) (settlementId : ℕ) : List Payout :=
  db.payouts.filter (fun p => p.settlement_id = some settlementId)

/-- `payouts.incrementRetry(id, errorMessage)`. -/
def payouts.incrementRetry (db : Db) (id : ℕ) (errorMessage : String) (now : ℤ) : Db :=
  updatePayoutRow db id (fun p =>
    { p with retry_count := p.retry_count + 1
             last_retry_at := some now
             error_message := some errorMessage })

/-- `settlements.create()`: inserts a fresh `pending` settlement. -/
def settlements.create (db : Db) (now : ℤ) : Settlement × Db :=
  let s : Settlement :=
    { id := db.nextSettlementId
      status := .pending
      triggered_at := now
      error_message := none }
  (s, { db with settlements := db.settlements ++ [s]
                nextSettlementId := db.nextSettlementId + 1 })

/-- `settlements.getById(id)`. -/
def settlements.getById (db : Db) (id : ℕ) : Option Settlement :=
  db.settlements.find? (fun s => s.id = id)

/-- The shared `UPDATE settlements ... WHERE id = ?` shape. -/
def updateSettlementRow (db : Db) (id : ℕ) (f : Settlement → Settlement) : Db :=
  { db with settlements := db.settlements.map (fun s => if s.id = id then f s else s) }

/-- `settlements.updateStatus(id, status, errorMessage)`: note the source
always overwrites `error_message` (default `null`). -/
def settlements.updateStatus (db : Db) (id : ℕ) (status : SettlementStatus)
    (errorMessage : Option String) : Db :=
  updateSettlementRow db id (fun s => { s with status := status, error_message := errorMessage })

/-- `settlements.getIncomplete()`: `status != 'completed'`, ordered by
`triggered_at` ascending. -/
def settlements.getIncomplete (db : Db) : List Settlement :=
  sortLe (fun a b => decide (a.triggered_at ≤ b.triggered_at))
    (db.settlements.filter (fun s => s.status ≠ SettlementStatus.completed))

/-- `runtimeState.getEmergencyStopped()`. -/
def runtimeState.getEmergencyStopped (db : Db) : Bool :=
  db.emergency_stopped

/-- `runtimeState.setEmergencyStopped(stopped)`. -/
def runtimeState.setEmergencyStopped (db : Db) (stopped : Bool) : Db :=
  { db with emergency_stopped := stopped }

/-- `runtimeState.setLastMorningTradeDate(dateStr)`. -/
def runtimeState.setLastMorningTradeDate (db : Db) (dateStr : String) : Db :=
  { db with last_morning_trade_date := dateStr }

/-- `runtimeState.setNextHourlyTradeAt(timestamp)`. -/
def runtimeState.setNextHourlyTradeAt (db : Db) (timestamp : ℤ) : Db :=
  { db with next_hourly_trade_at := timestamp }

/-- `runtimeState.setLastWeeklyPayoutDate(dateStr)`. -/
def runtimeState.setLastWeeklyPayoutDate (db : Db) (dateStr : String) : Db :=
  { db with last_weekly_payout_date := dateStr }

/-! ## Configuration (config.yaml via src/config/index.js) -/

/-- The configuration values consumed by the engine under verification. -/
structure Config where
  min_votes : ℕ
  min_position_pct : ℚ
  max_position_pct : ℚ
  min_payout_usd : ℚ
  payout_share : ℚ
  distribution : Distribution
  voting_window_seconds : ℕ
  min_gap_minutes : ℕ
  morning_hour : ℕ
  morning_minute : ℕ
  morning_blackout_minutes : ℕ
  trade_hours_start : ℕ
  trade_hours_end : ℕ
  interval_variance_minutes : ℕ
  weight_increase_per_prediction : ℚ
  max_weight : ℚ
  deriving Repr

/-! ## Payout engine (src/services/payouts.js) -/

/-- `MAX_PAYOUT_RETRIES`. -/
def MAX_PAYOUT_RETRIES : ℕ := 5

/-- `RETRY_DELAYS_MS`: the backoff ladder 1m, 2m, 4m, 8m, 16m. -/
def RETRY_DELAYS_MS : List ℤ := [60000, 120000, 240000, 480000, 960000]

/-- `serializeTxRequest(txRequest)`: validates the required fields and the
type-dependent fee fields, normalizes `type` (`undefined`/`null` → `0`) and
produces the stored form. A JS `throw` is modelled as `none`. -/
def serializeTxRequest (tx : TxRequest) : Option StoredTx :=
  match tx.toAddr, tx.callData, tx.value, tx.nonce, tx.gasLimit, tx.chainId with
  | some toA, some dataV, some v, some non, some g, some c =>
    if tx.txType = some 2 then
      match tx.maxFeePerGas, tx.maxPriorityFeePerGas with
      | some mf, some mp =>
        if tx.gasPrice ≠ none then none
        else some
          { toAddr := toA, callData := dataV, value := v, nonce := non
            gasLimit := g, chainId := c, txType := 2, gasPrice := none
            maxFeePerGas := some mf, maxPriorityFeePerGas := some mp }
      | _, _ => none
    else if tx.txType = some 0 ∨ tx.txType = none then
      match tx.gasPrice with
      | some gp =>
        if tx.maxFeePerGas ≠ none ∨ tx.maxPriorityFeePerGas ≠ none then none
        else some
          { toAddr := toA, callData := dataV, value := v, nonce := non
            gasLimit := g, chainId := c, txType := 0, gasPrice := some gp
            maxFeePerGas := none, maxPriorityFeePerGas := none }
      | none => none
    else none
  | _, _, _, _, _, _ => none

/-- `deserializeTxRequest(txRequestJson)` on a non-null stored blob:
re-validates the type-dependent fee fields and rebuilds the in-memory
request. A JS `throw` is modelled as `none`. (The "missing stored field"
throws are unrepresentable here because `StoredTx` already carries every
required field, exactly as every blob written by `serializeTxRequest`
does.) -/
def deserializeTxRequest (s : StoredTx) : Option TxRequest :=
  if s.txType = 2 then
    match s.maxFeePerGas, s.maxPriorityFeePerGas with
    | some mf, some mp =>
      if s.gasPrice ≠ none then none
      else some
        { toAddr := some s.toAddr, callData := some s.callData
          value := some s.value, nonce := some s.nonce
          gasLimit := some s.gasLimit, chainId := some s.chainId
          txType := some 2, gasPrice := none
          maxFeePerGas := some mf, maxPriorityFeePerGas := some mp }
    | _, _ => none
  else if s.txType = 0 then
    match s.gasPrice with
    | some gp =>
      if s.maxFeePerGas ≠ none ∨ s.maxPriorityFeePerGas ≠ none then none
      else some
        { toAddr := some s.toAddr, callData := some s.callData
          value := some s.value, nonce := some s.nonce
          gasLimit := some s.gasLimit, chainId := some s.chainId
          txType := some 0, gasPrice := some gp
          maxFeePerGas := none, maxPriorityFeePerGas := none }
    | none => none
  else none

/-- What the chain answers when `reconcilePayoutTx` looks up a stored tx
hash (`getTransactionReceipt` then `getTransaction`). -/
inductive ReceiptQuery
  | successReceipt
  | revertedReceipt
  | noReceiptTxKnown
  | missing
  | threw
  deriving DecidableEq, Repr

/-- How broadcasting a signed transaction turns out inside
`sendUsdcPayout` (the `sendTransaction`/`wait` block and its catch). -/
inductive BroadcastOutcome
  | confirmed
  | revertedWait
  | errorReverted (hash : String)
  | errorOther (hash : Option String) (msg : String)
  deriving DecidableEq, Repr

/-- The blockchain-facing oracle: everything `payouts.js` learns from RPC
calls, the signer and the USDC contract. `deriveTx` stands for
`populateTransaction` (contract call data, wallet-filled nonce and fees). -/
structure ChainWorld where
  isTestMode : Bool
  walletConfigured : Bool
  gasOk : Bool
  usdcBalanceOk : Bool
  receiptFor : String → ReceiptQuery
  deriveTx : String → ℚ → TxRequest
  networkChainId : ℤ
  hashOf : TxRequest → String
  broadcast : TxRequest → BroadcastOutcome

/-- The JS return value of `sendUsdcPayout`. -/
structure SendResult where
  success : Bool
  pending : Bool
  failed : Bool
  txHash : Option String
  error : Option String
  deriving DecidableEq, Repr

/-- Lines 568–582 of `sendUsdcPayout`: default `value` to 0, infer a
missing `type` from the fee fields present, default `chainId` from the
network. -/
def normalizeDerived (w : ChainWorld) (t0 : TxRequest) : TxRequest :=
  let t1 := if t0.value = none then { t0 with value := some 0 } else t0
  let t2 :=
    if t1.txType = none then
      if t1.maxFeePerGas ≠ none ∨ t1.maxPriorityFeePerGas ≠ none then
        { t1 with txType := some 2 }
      else if t1.gasPrice ≠ none then { t1 with txType := some 0 }
      else t1
    else t1
  if t2.chainId = none then { t2 with chainId := some w.networkChainId } else t2

/-- Lines 587–613 of `sendUsdcPayout`: sign `txReq`, store the keccak hash
before broadcasting, broadcast, wait, and map every outcome to the JS
return value. -/
def signAndBroadcast (w : ChainWorld) (db : Db) (payoutId : ℕ)
    (txReq : TxRequest) : SendResult × Db :=
  let txHash := w.hashOf txReq
  let db1 := payouts.updateTxHash db payoutId (some txHash)
  match w.broadcast txReq with
  | .confirmed =>
    ({ success := true, pending := false, failed := false
       txHash := some txHash, error := none }, db1)
  | .revertedWait =>
    ({ success := false, pending := false, failed := true
       txHash := some txHash, error := some "Transaction reverted" }, db1)
  | .errorReverted h =>
    ({ success := false, pending := false, failed := true
       txHash := some h, error := some "Transaction reverted" },
     payouts.updateTxHash db1 payoutId (some h))
  | .errorOther h msg =>
    (({ success := false, pending := h.isSome, failed := false
        txHash := h, error := some msg } : SendResult),
     match h with
     | some h' => payouts.updateTxHash db1 payoutId (some h')
     | none => db1)

/-- `sendUsdcPayout(payoutId, recipientAddress, amountUsd, txRequestJson)`:
reuse a stored serialized request verbatim when present, otherwise derive
a fresh one, persist its serialized form, then sign and broadcast. -/
def sendUsdcPayout (w : ChainWorld) (db : Db) (payoutId : ℕ)
    (recipient : Option String) (amountUsd : ℚ)
    (txRequestJson : Option StoredTx) : SendResult × Db :=
  if w.isTestMode then
    ({ success := true, pending := false, failed := false
       txHash := none, error := none }, db)
  else if ¬ w.walletConfigured then
    ({ success := false, pending := false, failed := false
       txHash := none, error := some "Wallet not configured" }, db)
  else if ¬ w.gasOk then
    ({ success := false, pending := false, failed := false
       txHash := none, error := some "Insufficient MATIC for gas" }, db)
  else if ¬ w.usdcBalanceOk then
    ({ success := false, pending := false, failed := false
       txHash := none, error := some "Insufficient USDC balance" }, db)
  else
    match txRequestJson with
    | some stored =>
      match deserializeTxRequest stored with
      | some txReq => signAndBroadcast w db payoutId txReq
      | none =>
        ({ success := false, pending := false, failed := false
           txHash := none, error := some "Invalid stored tx request" }, db)
    | none =>
      match recipient with
      | none =>
        ({ success := false, pending := false, failed := false
           txHash := none, error := some "Missing recipient address" }, db)
      | some addr =>
        let derived := normalizeDerived w (w.deriveTx addr amountUsd)
        match serializeTxRequest derived with
        | some s =>
          signAndBroadcast w (payouts.updateTxRequest db payoutId (some s))
            payoutId derived
        | none =>
          ({ success := false, pending := false, failed := false
             txHash := none, error := some "Invalid derived tx request" }, db)

/-- The classification `reconcilePayoutTx` returns. -/
inductive ReconcileStatus
  | noHash
  | pendingTx
  | sentTx
  | failedTx
  | missingTx
  deriving DecidableEq, Repr

/-- `reconcilePayoutTx(payout)`: query the chain for the stored hash and
update the row accordingly. -/
def reconcilePayoutTx (w : ChainWorld) (db : Db) (p : Payout) (now : ℤ) :
    ReconcileStatus × Db :=
  match p.tx_hash with
  | none => (.noHash, db)
  | some h =>
    match w.receiptFor h with
    | .noReceiptTxKnown => (.pendingTx, db)
    | .missing => (.missingTx, db)
    | .threw => (.pendingTx, db)
    | .successReceipt => (.sentTx, payouts.updateStatus db p.id .sent)
    | .revertedReceipt =>
      let db1 := payouts.updateStatus db p.id .failed
      let db2 := payouts.incrementRetry db1 p.id "Transaction reverted" now
      let db3 := payouts.updateTxHash db2 p.id none
      (.failedTx, payouts.updateTxRequest db3 p.id none)

/-- The observable part of the JS object `processPayout` returns. -/
structure PayoutResult where
  success : Bool
  pending : Bool
  alreadySent : Bool
  attempted : Bool
  deriving DecidableEq, Repr

/-- `processPayout(payout)`: the idempotent send/reconcile step for one
payout row (decisions are made on the snapshot row `p`, updates by id). -/
def processPayout (w : ChainWorld) (db : Db) (p : Payout) (now : ℤ) :
    PayoutResult × Db :=
  if p.status = PayoutStatus.sent then
    ({ success := true, pending := false, alreadySent := true, attempted := false }, db)
  else
    match reconcilePayoutTx w db p now with
    | (.sentTx, db1) =>
      ({ success := true, pending := false, alreadySent := true, attempted := false }, db1)
    | (.pendingTx, db1) =>
      ({ success := false, pending := true, alreadySent := false, attempted := false }, db1)
    | (.missingTx, db1) =>
      match p.tx_request with
      | some _ =>
        let (r, db2) := sendUsdcPayout w db1 p.id none p.amount p.tx_request
        if r.pending then
          ({ success := false, pending := true, alreadySent := false, attempted := true }, db2)
        else if r.success then
          ({ success := true, pending := false, alreadySent := false, attempted := true },
           payouts.updateStatus db2 p.id .sent)
        else
          let db3 := payouts.updateStatus db2 p.id .failed
          let db4 := payouts.incrementRetry db3 p.id (r.error.getD "Unknown error") now
          ({ success := false, pending := false, alreadySent := false, attempted := true }, db4)
      | none =>
        ({ success := false, pending := true, alreadySent := false, attempted := false }, db1)
    | (.failedTx, db1) =>
      ({ success := false, pending := false, alreadySent := false, attempted := false }, db1)
    | (.noHash, db1) =>
      let walletOf := (users.get db1 p.user_id).bind (fun u => u.wallet_address)
      match walletOf with
      | none =>
        let db2 := payouts.updateStatus db1 p.id .failed
        let db3 := payouts.incrementRetry db2 p.id "No wallet address" now
        ({ success := false, pending := false, alreadySent := false, attempted := false }, db3)
      | some addr =>
        let (r, db2) := sendUsdcPayout w db1 p.id (some addr) p.amount p.tx_request
        if r.pending then
          ({ success := false, pending := true, alreadySent := false, attempted := true }, db2)
        else if r.success then
          ({ success := true, pending := false, alreadySent := false, attempted := true },
           payouts.updateStatus db2 p.id .sent)
        else
          let db3 := payouts.updateStatus db2 p.id .failed
          let db4 := payouts.incrementRetry db3 p.id (r.error.getD "Unknown error") now
          let db5 :=
            if r.failed ∧ r.txHash ≠ none then
              payouts.updateTxRequest (payouts.updateTxHash db4 p.id none) p.id none
            else db4
          ({ success := false, pending := false, alreadySent := false, attempted := true }, db5)

/-- `triggerPayoutEmergencyStop(settlementId, channel, reason)`: mark the
settlement `failed` and persist the emergency stop (the channel
announcement does not touch the store). -/
def triggerPayoutEmergencyStop (db : Db) (settlementId : ℕ) (reason : String) : Db :=
  let db1 := settlements.updateStatus db settlementId .failed
    (some ("Emergency stop triggered - " ++ reason))
  runtimeState.setEmergencyStopped db1 true

/-- The `for (const payout of settlementPayouts)` loop of
`executeSettlementPayouts`, threading the store. -/
def processPayoutsLoop (w : ChainWorld) (now : ℤ) :
    Db → List Payout → List PayoutResult × Db
  | db, [] => ([], db)
  | db, p :: rest =>
    let (r, db1) := processPayout w db p now
    let (rs, db2) := processPayoutsLoop w now db1 rest
    (r :: rs, db2)

/-- `executeSettlementPayouts(settlementId, channel)`. -/
def executeSettlementPayouts (w : ChainWorld) (db : Db) (settlementId : ℕ)
    (now : ℤ) : Db :=
  match settlements.getById db settlementId with
  | none => db
  | some _ =>
    let settlementPayouts := payouts.getBySettlement db settlementId
    if settlementPayouts = [] then
      triggerPayoutEmergencyStop db settlementId "No payout records for settlement"
    else
      let (results, db1) := processPayoutsLoop w now db settlementPayouts
      let allSucceeded := results.all (fun r => r.success)
      let anyFailed := results.any (fun r => ¬ r.success ∧ ¬ r.pending)
      let anyPending := results.any (fun r => r.pending)
      if allSucceeded then
        settlements.updateStatus db1 settlementId .completed none
      else if anyFailed then
        let failedPayouts := payouts.getFailedBySettlement db1 settlementId
        if failedPayouts.any (fun p => p.retry_count < MAX_PAYOUT_RETRIES) then
          settlements.updateStatus db1 settlementId .failed
            (some "Some payouts failed - will retry")
        else
          triggerPayoutEmergencyStop
            (settlements.updateStatus db1 settlementId .failed
              (some "All payout retries exhausted"))
            settlementId "All payout retries exhausted"
      else if anyPending then
        settlements.updateStatus db1 settlementId .distributing none
      else db1

/-- The payout-row creation loop inside the weekly settlement transaction
(one row per winner, rank 1-based, amount from the computed split). -/
def createPayoutsLoop (sid : ℕ) : Db → List User → List ℚ → ℕ → Db
  | db, u :: us, a :: as', rank =>
    createPayoutsLoop sid (payouts.create db u.discord_id a rank (some sid)).2 us as' (rank + 1)
  | db, _, _, _ => db

/-- The `db.transaction(...)` inside `runWeeklyPayouts`: re-check profit,
minimum payout, unsettled trades and winners against live data, then
atomically create the settlement, link the trades and insert the payout
rows. Returns the created settlement id (or `null`). -/
def runWeeklyPayoutsTxn (cfg : Config) (db : Db) (now : ℤ) : Option ℕ × Db :=
  let currentProfit := trades.getUnsettledPnl db
  if currentProfit ≤ 0 then (none, db)
  else
    let currentTotalPayout := floorToCents (currentProfit * cfg.payout_share)
    if currentTotalPayout < cfg.min_payout_usd then (none, db)
    else
      let unsettledTrades := trades.getUnsettledTrades db
      if unsettledTrades = [] then (none, db)
      else
        let tradeIds := unsettledTrades.map (fun t => t.id)
        let winners := users.getTopPredictorsForTrades db tradeIds 3
        if winners = [] then (none, db)
        else
          let payoutAmounts :=
            calculatePayoutAmounts currentTotalPayout cfg.distribution winners.length
          if payoutAmounts = [] then (none, db)
          else
            let (s, db1) := settlements.create db now
            let db2 := settlements.updateStatus db1 s.id .distributing none
            let db3 := trades.linkToSettlement db2 tradeIds s.id
            let db4 := createPayoutsLoop s.id db3 winners payoutAmounts 1
            (some s.id, db4)

/-- `runWeeklyPayouts(channel)`: pre-check unsettled profit and the payout
minimum, run the settlement transaction, then drive the created
settlement's payouts. -/
def runWeeklyPayouts (w : ChainWorld) (cfg : Config) (db : Db) (now : ℤ) : Db :=
  let profitSinceLastPayout := trades.getUnsettledPnl db
  if profitSinceLastPayout ≤ 0 then db
  else
    let totalPayout := floorToCents (profitSinceLastPayout * cfg.payout_share)
    if totalPayout < cfg.min_payout_usd then db
    else
      match runWeeklyPayoutsTxn cfg db now with
      | (none, db1) => db1
      | (some sid, db1) => executeSettlementPayouts w db1 sid now

/-- The inner `for (const payout of retryablePayouts)` loop of
`retryFailedSettlements`: skip rows whose backoff has not elapsed,
process the rest (announcements don't touch the store). -/
def retryPayoutsLoop (w : ChainWorld) (now : ℤ) : Db → List Payout → Db
  | db, [] => db
  | db, p :: rest =>
    let delay := RETRY_DELAYS_MS.getD (min p.retry_count (RETRY_DELAYS_MS.length - 1)) 0
    let lastRetry := p.last_retry_at.getD 0
    if now - lastRetry < delay then retryPayoutsLoop w now db rest
    else retryPayoutsLoop w now (processPayout w db p now).2 rest

/-- One iteration of the `for (const settlement of incompleteSettlements)`
loop of `retryFailedSettlements`, for the settlement with id `sid`. -/
def retryOneSettlement (w : ChainWorld) (db : Db) (sid : ℕ) (now : ℤ) : Db :=
  let settlementPayouts := payouts.getBySettlement db sid
  if settlementPayouts = [] then
    triggerPayoutEmergencyStop db sid "No payout records for settlement"
  else
    let pendingOrFailed := settlementPayouts.filter (fun p => p.status ≠ PayoutStatus.sent)
    if pendingOrFailed = [] then
      settlements.updateStatus db sid .completed none
    else
      let retryablePayouts := pendingOrFailed.filter
        (fun p => p.retry_count < MAX_PAYOUT_RETRIES)
      if retryablePayouts = [] then
        triggerPayoutEmergencyStop db sid "All payout retries exhausted"
      else
        let db1 := retryPayoutsLoop w now db retryablePayouts
        let remainingUnsent := (payouts.getBySettlement db1 sid).filter
          (fun p => p.status ≠ PayoutStatus.sent)
        if remainingUnsent = [] then
          settlements.updateStatus db1 sid .completed none
        else if remainingUnsent.all (fun p => MAX_PAYOUT_RETRIES ≤ p.retry_count) then
          triggerPayoutEmergencyStop db1 sid "All payout retries exhausted"
        else db1

/-- The settlement loop of `retryFailedSettlements` over the snapshot of
incomplete-settlement ids. -/
def retrySettlementsLoop (w : ChainWorld) (now : ℤ) : Db → List ℕ → Db
  | db, [] => db
  | db, sid :: rest => retrySettlementsLoop w now (retryOneSettlement w db sid now) rest

/-- `retryFailedSettlements(channel)`: re-scan every incomplete settlement
and drive its payouts through the bounded-retry pipeline. Note: the
callers in `bot/client.js` (startup and a 5-minute interval) do **not**
consult the emergency-stop flag, and neither does this function. -/
def retryFailedSettlements (w : ChainWorld) (db : Db) (now : ℤ) : Db :=
  retrySettlementsLoop w now db ((settlements.getIncomplete db).map (fun s => s.id))

/-! ## Scheduler (src/services/scheduler.js) and its external world -/

/-- A Polymarket 15-minute market as consumed by the scheduler. -/
structure Market where
  id : String
  slug : String
  asset : String
  start_time : ℤ
  resolution_time : ℤ
  deriving DecidableEq, Repr

/-- The part of the `analyzeMarket` answer the scheduler consumes. -/
structure Analysis where
  asset : String
  deriving DecidableEq, Repr

/-- `getMarketResolution(marketId)`. -/
structure Resolution where
  resolved : Bool
  outcome : Direction
  conditionId : String
  tokenIds : List String
  deriving DecidableEq, Repr

/-- `executeTrade(market, position, size)`. -/
structure ExecResult where
  success : Bool
  orderID : String
  sharesFilled : ℚ
  avgFillPrice : ℚ
  totalCost : ℚ
  reason : Option String
  deriving DecidableEq, Repr

/-- The scheduler's external world: timezone rendering of timestamps,
`Math.random` draws, the Discord surface (reads only — sends never gate a
store transition), the Polymarket gateway, the AI signal source and the
blockchain oracle. -/
structure World where
  chain : ChainWorld
  channelAvailable : Bool
  tzHour : ℤ → ℕ
  tzMinute : ℤ → ℕ
  tzDate : ℤ → String
  tzWeekday : ℤ → String
  randTie : ℕ → ℚ
  randHourly : ℚ
  poolBalance : ℚ
  marketsByAsset : String → Option Market
  marketLookup : String → Option Market
  analysis : Option Analysis
  proposalPostOk : Bool
  proposalMessageId : ℕ
  fetchMessageOk : ℕ → Bool
  reactors : ℕ → List (String × Direction)
  usernameOf : String → Option String
  executeTradeResult : ℕ → ExecResult
  resolutionOf : String → Resolution
  pnlOf : String → ℚ
  redeemFails : String → Bool

/-- Process state: the persistent store plus the in-memory
`resolvingTrades` set (lost on restart). -/
structure ProcState where
  store : Db
  resolving : List ℕ

/-- A process restart reloads the store and clears the in-memory set. -/
def restartProcess (ps : ProcState) : ProcState :=
  { store := ps.store, resolving := [] }

/-- `isEmergencyStopped()`. -/
def isEmergencyStopped (db : Db) : Bool :=
  runtimeState.getEmergencyStopped db

/-- `setEmergencyStop(stopped)`. -/
def setEmergencyStop (db : Db) (stopped : Bool) : Db :=
  runtimeState.setEmergencyStopped db stopped

/-- The result of `canStartTrade`. -/
structure CheckResult where
  allowed : Bool
  reason : Option String
  waitMs : Option ℤ
  deriving DecidableEq, Repr

/-- The 12-hour `availableAt` string built by `isInMorningBlackout`. -/
def availableAtLabel (cfg : Config) : String :=
  let h12 := if cfg.morning_hour % 12 = 0 then 12 else cfg.morning_hour % 12
  let mm := (if cfg.morning_minute < 10 then "0" else "") ++ toString cfg.morning_minute
  toString h12 ++ ":" ++ mm ++ (if 12 ≤ cfg.morning_hour then " PM" else " AM")

/-- `isInMorningBlackout(now)`: true inside the configured window that
ends at the daily morning-trade time. -/
def isInMorningBlackout (w : World) (cfg : Config) (now : ℤ) : Bool :=
  let currentTotalMinutes : ℤ := w.tzHour now * 60 + w.tzMinute now
  let targetTotalMinutes : ℤ := cfg.morning_hour * 60 + cfg.morning_minute
  let blackoutStartMinutes : ℤ := targetTotalMinutes - cfg.morning_blackout_minutes
  decide (blackoutStartMinutes ≤ currentTotalMinutes ∧
    currentTotalMinutes < targetTotalMinutes)

/-- The blackout test applied only to user proposals, inside
`canStartTrade`. -/
def blackoutGate (w : World) (cfg : Config) (now : ℤ) (isUserProposal : Bool) :
    CheckResult :=
  if isUserProposal ∧ isInMorningBlackout w cfg now then
    { allowed := false
      reason := some ("Morning trade blackout. /propose available again at " ++
        availableAtLabel cfg ++ ".")
      waitMs := none }
  else { allowed := true, reason := none, waitMs := none }

/-- `canStartTrade(isUserProposal)`: read-only admission control — denial
on emergency stop, an active trade, an incomplete settlement, the minimum
gap after the last resolved trade, or (user proposals only) the morning
blackout. -/
def canStartTrade (w : World) (cfg : Config) (db : Db) (now : ℤ)
    (isUserProposal : Bool) : CheckResult :=
  if isEmergencyStopped db then
    { allowed := false, reason := some "Bot is in emergency stop mode.", waitMs := none }
  else if (trades.getActive db).isSome then
    { allowed := false, reason := some "A trade is already in progress.", waitMs := none }
  else if settlements.getIncomplete db ≠ [] then
    { allowed := false
      reason := some "Payout settlement in progress. Trading will resume after payouts complete."
      waitMs := none }
  else
    match (trades.getLastResolved db).bind (fun t => t.resolved_at) with
    | some resolvedAt =>
      let gapMs := now - resolvedAt
      let minGapMs : ℤ := cfg.min_gap_minutes * 60 * 1000
      if gapMs < minGapMs then
        let waitMs := minGapMs - gapMs
        let waitMins := (waitMs + 60000 - 1) / 60000
        { allowed := false
          reason := some ("Too soon after last trade. Wait " ++ toString waitMins ++
            " minute(s).")
          waitMs := some waitMs }
      else blackoutGate w cfg now isUserProposal
    | none => blackoutGate w cfg now isUserProposal

/-- The asset-market fallback of `startTrade`: the chosen asset's market
(pre-fetched, then a direct lookup), else the first other asset with an
available market, in the fixed BTC/ETH/SOL/XRP order. -/
def tryAssets (w : World) : List String → Option (String × Market)
  | [] => none
  | a :: rest =>
    match (w.marketsByAsset a).or (w.marketLookup a) with
    | some m => some (a, m)
    | none => tryAssets w rest

/-- Market resolution for `startTrade`. -/
def pickMarket (w : World) (primary : String) : Option (String × Market) :=
  match (w.marketsByAsset primary).or (w.marketLookup primary) with
  | some m => some (primary, m)
  | none => tryAssets w (["BTC", "ETH", "SOL", "XRP"].filter (fun a => a ≠ primary))

/-- `startTrade(channel, triggeredBy)`: guards, market/analysis fetch,
atomic trade creation, proposal post; a failed post deletes the trade so
no `voting` row survives without a message reference. -/
def startTrade (w : World) (cfg : Config) (db : Db) (now : ℤ) : Db :=
  if isEmergencyStopped db then db
  else if settlements.getIncomplete db ≠ [] then db
  else if (trades.getActive db).isSome then db
  else
    match w.analysis with
    | none => db
    | some analysis =>
      match pickMarket w analysis.asset with
      | none => db
      | some (asset, market) =>
        let votingEndsAt := now + (cfg.voting_window_seconds : ℤ) * 1000
        match trades.createIfNoActive db
          { asset := asset
            polymarket_market_id := market.id
            resolution_time := some market.resolution_time
            voting_ends_at := votingEndsAt } with
        | (none, db1) => db1
        | (some t, db1) =>
          if ¬ w.proposalPostOk then trades.deleteTrade db1 t.id
          else trades.updateMessageId db1 t.id w.proposalMessageId

/-- `handleScheduledTrade(type)`: a gap-blocked trigger reschedules itself
via `setTimeout` (a later, separate invocation — no store change now); any
other denial skips silently; otherwise start the trade. -/
def handleScheduledTrade (w : World) (cfg : Config) (db : Db) (now : ℤ) : Db :=
  if ¬ w.channelAvailable then db
  else
    let check := canStartTrade w cfg db now false
    if ¬ check.allowed then db
    else startTrade w cfg db now

/-- The per-reactor body of `snapshotPredictionsFromReactions`
(`getEligibleSnapshotUser` + `upsertWithSnapshot`): bots and non-holders
are already absent from the oracle's reactor list; a missing wallet
disqualifies; a stale username is refreshed via `getOrCreate`. -/
def snapshotLoop (w : World) (tradeId : ℕ) (snapshotAt : ℤ) :
    Db → List (String × Direction) → Db
  | db, [] => db
  | db, (uid, dir) :: rest =>
    match users.get db uid with
    | none => snapshotLoop w tradeId snapshotAt db rest
    | some u =>
      if u.wallet_address = none then snapshotLoop w tradeId snapshotAt db rest
      else
        let db1 :=
          if u.discord_username ≠ w.usernameOf uid then
            (users.getOrCreate db uid (w.usernameOf uid)).2
          else db
        snapshotLoop w tradeId snapshotAt
          (predictions.upsertWithSnapshot db1 uid tradeId dir snapshotAt) rest

/-- `snapshotPredictionsFromReactions(tradeId, message, …, snapshotAt)`:
snapshot every eligible reactor's vote with the shared timestamp, then
purge non-snapshotted leftovers. -/
def snapshotPredictionsFromReactions (w : World) (db : Db) (tradeId : ℕ)
    (snapshotAt : ℤ) : Db :=
  predictions.deleteNonSnapshotted
    (snapshotLoop w tradeId snapshotAt db (w.reactors tradeId)) tradeId

/-- The rounded vote percentages of `closeVoting`:
`upPercent = Math.round(upVotes/totalVotes*100)`,
`downPercent = 100 - upPercent`. -/
def votingPercents (up down : ℕ) : ℤ × ℤ :=
  let upPercent := jsRound ((up : ℚ) / ((up + down : ℕ) : ℚ) * 100)
  (upPercent, 100 - upPercent)

/-- The conviction the code computes:
`Math.abs(upPercent - downPercent) / 100`. -/
def codeConviction (up down : ℕ) : ℚ :=
  |((votingPercents up down).1 : ℚ) - ((votingPercents up down).2 : ℚ)| / 100

/-- The position-size computation of `closeVoting` (lines 604–620): linear
interpolation between the configured pool fractions by conviction, with
the $1 minimum (`none` = pool cannot support $1, trade cancelled). The
zero-config fallbacks mirror `Number(x) || 0.05` / `|| 0.10`. -/
def positionSizeOf (cfg : Config) (poolBalance : ℚ) (up down : ℕ) : Option ℚ :=
  let conviction := codeConviction up down
  let minPct := if cfg.min_position_pct = 0 then 1 / 20 else cfg.min_position_pct
  let maxPct := if cfg.max_position_pct = 0 then 1 / 10 else cfg.max_position_pct
  let minSize := poolBalance * minPct
  let maxSize := poolBalance * maxPct
  let positionSize := minSize + (maxSize - minSize) * conviction
  if positionSize < 1 then
    if 1 ≤ poolBalance then some 1 else none
  else some positionSize

/-- The direction chosen at voting close: majority, tie broken by
`Math.random() > 0.5` (the draw is the oracle's `randTie` value for the
trade). -/
def chosenPosition (up down : ℕ) (draw : ℚ) : Direction :=
  if down < up then .UP
  else if up < down then .DOWN
  else if 1 / 2 < draw then .UP else .DOWN

/-- What `closeVoting` did, as observable through its external calls. -/
inductive CloseOutcome
  | skipped
  | cancelled (reason : String)
  | executedTrade (position : Direction) (positionSize : ℚ)
  deriving DecidableEq, Repr

/-- `closeVoting(tradeId, proposalMessage, channel, market)`: snapshot,
tally, quorum check, direction choice, sizing, execution; every abort
deletes the trade. -/
def closeVoting (w : World) (cfg : Config) (db : Db) (tradeId : ℕ)
    (market : Option Market) (now : ℤ) : Db × CloseOutcome :=
  match trades.getById db tradeId with
  | none => (db, .skipped)
  | some trade =>
    if trade.status ≠ TradeStatus.voting then (db, .skipped)
    else
      let db1 := snapshotPredictionsFromReactions w db tradeId now
      let counts := predictions.getVoteCounts db1 tradeId
      let upVotes := counts.1
      let downVotes := counts.2
      let totalVotes := upVotes + downVotes
      if totalVotes < cfg.min_votes then
        (trades.deleteTrade db1 tradeId, .cancelled "Not enough votes")
      else
        let position := chosenPosition upVotes downVotes (w.randTie tradeId)
        if w.poolBalance ≤ 0 then
          (trades.deleteTrade db1 tradeId, .cancelled "No USDC balance in wallet")
        else
          match positionSizeOf cfg w.poolBalance upVotes downVotes with
          | none =>
            (trades.deleteTrade db1 tradeId,
             .cancelled "Pool balance too low for minimum bet")
          | some positionSize =>
            match market with
            | none => (trades.deleteTrade db1 tradeId, .cancelled "No active market")
            | some _ =>
              let result := w.executeTradeResult tradeId
              if ¬ result.success then
                (trades.deleteTrade db1 tradeId, .cancelled "Trade execution failed")
              else
                let db2 := trades.execute db1 tradeId position now
                let db3 := trades.updateOrderId db2 tradeId result.orderID
                (db3, .executedTrade position positionSize)

/-- `closeVotingFromTick(trade)`: fetch the proposal message (missing →
cancel), fetch the market (missing/throw → cancel), then `closeVoting`. -/
def closeVotingFromTick (w : World) (cfg : Config) (db : Db) (trade : Trade)
    (now : ℤ) : Db :=
  if ¬ w.channelAvailable then db
  else
    match trade.proposal_message_id with
    | none => trades.deleteTrade db trade.id
    | some mid =>
      if ¬ w.fetchMessageOk mid then trades.deleteTrade db trade.id
      else
        match w.marketLookup trade.asset with
        | none => trades.deleteTrade db trade.id
        | some m => (closeVoting w cfg db trade.id (some m) now).1

/-- The loop of `checkVotingWindows` over the voting-trade snapshot. -/
def votingWindowsLoop (w : World) (cfg : Config) (now : ℤ) :
    Db → List Trade → Db
  | db, [] => db
  | db, t :: rest =>
    votingWindowsLoop w cfg now
      (if t.voting_ends_at ≤ now then closeVotingFromTick w cfg db t now else db) rest

/-- `checkVotingWindows(now)`. -/
def checkVotingWindows (w : World) (cfg : Config) (db : Db) (now : ℤ) : Db :=
  votingWindowsLoop w cfg now db (trades.getVotingTrades db)

/-- `checkMorningTrade(now)`: once per timezone-calendar day at/after the
configured time, gated by the persisted `last_morning_trade_date`. -/
def checkMorningTrade (w : World) (cfg : Config) (db : Db) (now : ℤ) : Db :=
  let todayDate := w.tzDate now
  if db.last_morning_trade_date = todayDate then db
  else
    let currentTotalMinutes : ℤ := w.tzHour now * 60 + w.tzMinute now
    let targetTotalMinutes : ℤ := cfg.morning_hour * 60 + cfg.morning_minute
    if targetTotalMinutes ≤ currentTotalMinutes then
      handleScheduledTrade w cfg (runtimeState.setLastMorningTradeDate db todayDate) now
    else db

/-- `scheduleNextHourlyTrade(now)`: persist the next randomized absolute
fire time (clamped to at least one minute from now). -/
def scheduleNextHourlyTrade (w : World) (cfg : Config) (db : Db) (now : ℤ) : Db :=
  let currentMinute : ℤ := w.tzMinute now
  let secondsIntoMinute := now % 60000
  let msUntilNextHour := (60 - currentMinute) * 60 * 1000 - secondsIntoMinute
  let nextHour := now + msUntilNextHour
  let variance : ℤ := cfg.interval_variance_minutes * 60 * 1000
  let randomOffset := ⌊w.randHourly * (variance : ℚ) * 2⌋ - variance
  let scheduledTime := nextHour + randomOffset
  let scheduledTime := if scheduledTime ≤ now then now + 60000 else scheduledTime
  runtimeState.setNextHourlyTradeAt db scheduledTime

/-- `checkHourlyTrade(now)`: skip the morning hour and anything outside
trading hours; fire when the persisted next-fire time has passed,
re-rolling it first. -/
def checkHourlyTrade (w : World) (cfg : Config) (db : Db) (now : ℤ) : Db :=
  if w.tzHour now = cfg.morning_hour then db
  else if ¬ (cfg.trade_hours_start ≤ w.tzHour now ∧ w.tzHour now < cfg.trade_hours_end) then db
  else if db.next_hourly_trade_at = 0 then scheduleNextHourlyTrade w cfg db now
  else if db.next_hourly_trade_at ≤ now then
    handleScheduledTrade w cfg (scheduleNextHourlyTrade w cfg db now) now
  else db

/-- `handleWeeklyPayout()`: the guards (emergency stop, incomplete
settlement) run synchronously right before `runWeeklyPayouts` — there is
no awaited suspension between the check and the settlement transaction. -/
def handleWeeklyPayout (w : World) (cfg : Config) (db : Db) (now : ℤ) : Db :=
  if ¬ w.channelAvailable then db
  else if isEmergencyStopped db then db
  else if settlements.getIncomplete db ≠ [] then db
  else runWeeklyPayouts w.chain cfg db now

/-- `checkWeeklyPayout(now)`: Sundays at/after 18:00 in the configured
timezone, gated by the persisted `last_weekly_payout_date`. -/
def checkWeeklyPayout (w : World) (cfg : Config) (db : Db) (now : ℤ) : Db :=
  if w.tzWeekday now ≠ "Sun" then db
  else if w.tzHour now < 18 then db
  else
    let todayDate := w.tzDate now
    if db.last_weekly_payout_date = todayDate then db
    else handleWeeklyPayout w cfg (runtimeState.setLastWeeklyPayoutDate db todayDate) now

/-- The per-user body of the `applyResolutionUpdates` transaction:
streak bump/reset for the snapshotted predictor, reputation advance
toward the cap while below 1.0. -/
def resolutionUsersLoop (cfg : Config) (correct : Direction) :
    Db → List Prediction → Db
  | db, [] => db
  | db, pred :: rest =>
    match users.get db pred.user_id with
    | none => resolutionUsersLoop cfg correct db rest
    | some u =>
      let db1 :=
        if pred.prediction = correct then
          users.updateStreak db u.discord_id (u.current_streak + 1)
            (max u.best_streak (u.current_streak + 1))
        else users.updateStreak db u.discord_id 0 u.best_streak
      let db2 :=
        if u.reputation_weight < 1 then
          users.updateReputationWeight db1 u.discord_id
            (min cfg.max_weight (u.reputation_weight + cfg.weight_increase_per_prediction))
        else db1
      resolutionUsersLoop cfg correct db2 rest

/-- `applyResolutionUpdates(tradeId, correctPosition, pnl)`: one
transaction marking the trade resolved with its P&L, setting every
snapshotted prediction's correctness, and updating streaks/reputation. -/
def applyResolutionUpdates (cfg : Config) (db : Db) (tradeId : ℕ)
    (correct : Direction) (pnl : ℚ) (now : ℤ) : Db :=
  let db1 := trades.resolve db tradeId pnl now
  let db2 := predictions.markCorrectness db1 tradeId correct
  resolutionUsersLoop cfg correct db2 (predictions.getSnapshottedByTrade db2 tradeId)

/-- `resolveRound(tradeId, channel)`: poll resolution (not resolved →
no-op), fetch P&L, attempt redemption (**a redemption throw leaves the
store untouched** and the trade stays `executed`), then apply the
resolution transaction. -/
def resolveRound (w : World) (cfg : Config) (db : Db) (tradeId : ℕ) (now : ℤ) : Db :=
  match trades.getById db tradeId with
  | none => db
  | some trade =>
    if trade.status ≠ TradeStatus.executed then db
    else
      let resolution := w.resolutionOf trade.polymarket_market_id
      if ¬ resolution.resolved then db
      else if w.redeemFails resolution.conditionId then db
      else
        applyResolutionUpdates cfg db tradeId resolution.outcome
          (w.pnlOf resolution.conditionId) now

/-- The loop of `checkPendingResolutions` over ready trades, skipping ids
in the in-memory `resolvingTrades` set. Each resolution is modelled
synchronously (the id is added, worked and removed within the call, so
the set is unchanged afterwards). -/
def resolutionsLoop (w : World) (cfg : Config) (resolving : List ℕ) (now : ℤ) :
    Db → List Trade → Db
  | db, [] => db
  | db, t :: rest =>
    resolutionsLoop w cfg resolving now
      (if t.id ∈ resolving then db else resolveRound w cfg db t.id now) rest

/-- `checkPendingResolutions()`. -/
def checkPendingResolutions (w : World) (cfg : Config) (ps : ProcState)
    (now : ℤ) : ProcState :=
  if ¬ w.channelAvailable then ps
  else if isEmergencyStopped ps.store then ps
  else
    { ps with store :=
        (resolutionsLoop w cfg ps.resolving now ps.store
          (trades.getReadyForResolution ps.store now)) }

/-- `tick()`: the single periodic driver — short-circuits entirely while
the emergency stop is set, otherwise runs voting closures, the morning
check, the hourly check, the weekly-payout check and resolution polling,
in that order. -/
def tick (w : World) (cfg : Config) (ps : ProcState) (now : ℤ) : ProcState :=
  if isEmergencyStopped ps.store then ps
  else
    let db1 := checkVotingWindows w cfg ps.store now
    let db2 := checkMorningTrade w cfg db1 now
    let db3 := checkHourlyTrade w cfg db2 now
    let db4 := checkWeeklyPayout w cfg db3 now
    checkPendingResolutions w cfg { ps with store := db4 } now

/-- The separate five-minute settlement-retry interval installed in
`bot/client.js` on ready: it calls `retryFailedSettlements` directly and
does **not** consult the emergency-stop flag. -/
def settlementRetryTick (w : World) (ps : ProcState) (now : ℤ) : ProcState :=
  { ps with store := retryFailedSettlements w.chain ps.store now }

/-! ## The trade-lifecycle step relation (for the one-active-trade
invariant) -/

/-- The store-level trade operations that any of the concurrent trigger
sources (tick, `/propose`, delayed retry) can perform, at the granularity
of the synchronous SQLite steps: atomic guarded creation
(`trades.createIfNoActive`), execution of a trade that is re-checked to be
in `voting` (`closeVoting` re-reads the row and returns unless
`status === 'voting'`), resolution of a trade re-checked to be `executed`
(`resolveRound`), and deletion (every abort path). -/
inductive TradeOp
  | createOp (p : CreateTradeParams)
  | executeOp (id : ℕ) (pos : Direction) (orderId : String) (now : ℤ)
  | resolveOp (id : ℕ) (pnl : ℚ) (now : ℤ)
  | deleteOp (id : ℕ)

/-- Apply one trade-lifecycle operation to the store. -/
def applyTradeOp (db : Db) : TradeOp → Db
  | .createOp p => (trades.createIfNoActive db p).2
  | .executeOp id pos orderId now =>
    match trades.getById db id with
    | some t =>
      if t.status = TradeStatus.voting then
        trades.updateOrderId (trades.execute db id pos now) id orderId
      else db
    | none => db
  | .resolveOp id pnl now =>
    match trades.getById db id with
    | some t =>
      if t.status = TradeStatus.executed then trades.resolve db id pnl now else db
    | none => db
  | .deleteOp id => trades.deleteTrade db id

/-- Run a whole interleaving of trade-lifecycle operations. -/
def applyTradeOps (db : Db) (ops : List TradeOp) : Db :=
  ops.foldl applyTradeOp db

/-- How many trades are active (`voting` or `executed`). -/
def activeTradeCount (db : Db) : ℕ :=
  db.trades.countP (fun t => isActiveStatus t.status)

/-- The well-formedness that SQLite guarantees for the `trades` table and
that the invariant proof threads: at most one active trade, primary keys
distinct, and every key below the `AUTOINCREMENT` counter. -/
def TradeInv (db : Db) : Prop :=
  activeTradeCount db ≤ 1 ∧
  (db.trades.map (fun t => t.id)).Nodup ∧
  ∀ t ∈ db.trades, t.id < db.nextTradeId

/-! ## Validity of an ethers transaction request (the checks of
`serializeTxRequest`) -/

/-- A request `serializeTxRequest` accepts: all required fields present
and the type-dependent fee fields consistent (EIP-1559 type 2, or legacy
type 0 / absent type). -/
def validTxRequest (tx : TxRequest) : Prop :=
  tx.toAddr ≠ none ∧ tx.callData ≠ none ∧ tx.value ≠ none ∧ tx.nonce ≠ none ∧
  tx.gasLimit ≠ none ∧ tx.chainId ≠ none ∧
  ((tx.txType = some 2 ∧ tx.maxFeePerGas ≠ none ∧ tx.maxPriorityFeePerGas ≠ none ∧
      tx.gasPrice = none) ∨
   ((tx.txType = some 0 ∨ tx.txType = none) ∧ tx.gasPrice ≠ none ∧
      tx.maxFeePerGas = none ∧ tx.maxPriorityFeePerGas = none))

/-! ## Concrete fixtures used by witnesses and counterexamples -/

/-- A representative `config.yaml`. -/
def defaultConfig : Config :=
  { min_votes := 5
    min_position_pct := 1 / 20
    max_position_pct := 1 / 10
    min_payout_usd := 10
    payout_share := 2 / 5
    distribution := ⟨5, 3, 2⟩
    voting_window_seconds := 300
    min_gap_minutes := 30
    morning_hour := 9
    morning_minute := 30
    morning_blackout_minutes := 60
    trade_hours_start := 9
    trade_hours_end := 21
    interval_variance_minutes := 10
    weight_increase_per_prediction := 1 / 20
    max_weight := 1 }

/-- A valid legacy (type-0) transaction request. -/
def legacyTxRequest : TxRequest :=
  { toAddr := some "0xusdc"
    callData := some "0xa9059cbb"
    value := some 0
    nonce := some 7
    gasLimit := some 60000
    chainId := some 137
    txType := some 0
    gasPrice := some 30000000000
    maxFeePerGas := none
    maxPriorityFeePerGas := none }

/-- A valid EIP-1559 (type-2) transaction request. -/
def eip1559TxRequest : TxRequest :=
  { toAddr := some "0xusdc"
    callData := some "0xa9059cbb"
    value := some 0
    nonce := some 8
    gasLimit := some 60000
    chainId := some 137
    txType := some 2
    gasPrice := none
    maxFeePerGas := some 60000000000
    maxPriorityFeePerGas := some 30000000000 }

/-- A benign blockchain oracle. -/
def defaultChain : ChainWorld :=
  { isTestMode := false
    walletConfigured := true
    gasOk := true
    usdcBalanceOk := true
    receiptFor := fun _ => .missing
    deriveTx := fun _ _ => legacyTxRequest
    networkChainId := 137
    hashOf := fun _ => "0xsignedhash"
    broadcast := fun _ => .confirmed }

/-- A benign scheduler world. -/
def defaultWorld : World :=
  { chain := defaultChain
    channelAvailable := true
    tzHour := fun _ => 12
    tzMinute := fun _ => 0
    tzDate := fun _ => "2026-01-05"
    tzWeekday := fun _ => "Mon"
    randTie := fun _ => 3 / 4
    randHourly := 1 / 2
    poolBalance := 1000
    marketsByAsset := fun _ => none
    marketLookup := fun _ => none
    analysis := none
    proposalPostOk := true
    proposalMessageId := 1
    fetchMessageOk := fun _ => true
    reactors := fun _ => []
    usernameOf := fun _ => none
    executeTradeResult := fun _ =>
      { success := true, orderID := "ord-1", sharesFilled := 100
        avgFillPrice := 1 / 2, totalCost := 50, reason := none }
    resolutionOf := fun _ =>
      { resolved := false, outcome := .UP, conditionId := "cond", tokenIds := [] }
    pnlOf := fun _ => 0
    redeemFails := fun _ => false }

/-- A store with the emergency stop persisted. -/
def stoppedDb : Db :=
  { initialDb with emergency_stopped := true }

/-- Store with a distributing settlement whose single payout is already
sent, and the emergency stop set (for the settlement-retry
counterexample). -/
def c10Db : Db :=
  { initialDb with
    emergency_stopped := true
    settlements := [{ id := 1, status := .distributing, triggered_at := 0, error_message := none }]
    payouts := [{ id := 1, user_id := "u1", settlement_id := some 1, amount := 10
                  status := .sent, tx_hash := none, tx_request := none, rank := 1
                  retry_count := 0, last_retry_at := none, error_message := none }]
    nextSettlementId := 2
    nextPayoutId := 2 }

/-- A world whose market resolved but whose redemption call throws. -/
def c5World : World :=
  { defaultWorld with
    resolutionOf := fun _ =>
      { resolved := true, outcome := .UP, conditionId := "cond-5", tokenIds := ["t1", "t2"] }
    redeemFails := fun _ => true }

/-- An executed trade past its resolution time. -/
def c5Trade : Trade :=
  { id := 1, settlement_id := none, asset := "BTC", polymarket_market_id := "m-5"
    proposal_message_id := some 10, clob_order_id := some "o-5"
    executed_position := some .UP, pnl := none, resolution_time := some 100
    voting_ends_at := 50, status := .executed, executed_at := some 60, resolved_at := none }

/-- Store holding only `c5Trade`. -/
def c5Db : Db :=
  { initialDb with trades := [c5Trade], nextTradeId := 2 }

/-- Trade-creation parameters used by the C1 witness. -/
def sampleCreateParams : CreateTradeParams :=
  { asset := "BTC", polymarket_market_id := "m-1"
    resolution_time := some 1000, voting_ends_at := 500 }

/-- A store that already holds an active (voting) trade. -/
def c1ActiveDb : Db :=
  { initialDb with
    trades := [{ id := 1, settlement_id := none, asset := "ETH"
                 polymarket_market_id := "m-2", proposal_message_id := none
                 clob_order_id := none, executed_position := none, pnl := none
                 resolution_time := none, voting_ends_at := 100
                 status := .voting, executed_at := none, resolved_at := none }]
    nextTradeId := 2 }

/-- The prior, still-incomplete settlement of the C2 counterexample. -/
def c2Settlement : Settlement :=
  { id := 1, status := .failed, triggered_at := 0, error_message := some "prior failure" }

/-- A store with a failed (incomplete) settlement and a fresh unsettled
profitable trade with an eligible winner. -/
def c2Db : Db :=
  { initialDb with
    users := [{ discord_id := "u1", discord_username := some "u1"
                wallet_address := some "0xW1", reputation_weight := 1 / 10
                current_streak := 0, best_streak := 0 }]
    trades := [{ id := 1, settlement_id := none, asset := "BTC"
                 polymarket_market_id := "m-c2", proposal_message_id := some 5
                 clob_order_id := some "o1", executed_position := some .UP
                 pnl := some 100, resolution_time := some 10, voting_ends_at := 5
                 status := .resolved, executed_at := some 6, resolved_at := some 11 }]
    predictions := [{ user_id := "u1", trade_id := 1, prediction := .UP
                      was_correct := some true, snapshot_at := some 7 }]
    settlements := [c2Settlement]
    nextTradeId := 2
    nextSettlementId := 2 }

/-- Twenty voters with registered wallets. -/
def c9Users : List User :=
  (List.range 20).map (fun i =>
    { discord_id := "u" ++ toString i
      discord_username := some ("u" ++ toString i)
      wallet_address := some ("0x" ++ toString i)
      reputation_weight := 1 / 10
      current_streak := 0
      best_streak := 0 })

/-- Ten UP reactions then ten DOWN reactions: a perfect tie. -/
def c9Reactors : List (String × Direction) :=
  ((List.range 10).map (fun i => ("u" ++ toString i, Direction.UP))) ++
  ((List.range 10).map (fun i => ("u" ++ toString (10 + i), Direction.DOWN)))

/-- The voting trade being closed in the tie scenario. -/
def c9Trade : Trade :=
  { id := 1, settlement_id := none, asset := "BTC", polymarket_market_id := "m-9"
    proposal_message_id := some 7, clob_order_id := none, executed_position := none
    pnl := none, resolution_time := some 1000, voting_ends_at := 100
    status := .voting, executed_at := none, resolved_at := none }

/-- Store for the tie scenario. -/
def c9Db : Db :=
  { initialDb with users := c9Users, trades := [c9Trade], nextTradeId := 2 }

/-- World for the tie scenario (fixed random draw 3/4). -/
def c9World : World :=
  { defaultWorld with
    reactors := fun _ => c9Reactors
    usernameOf := fun uid => some uid }

/-- The market handed to `closeVoting` in the tie scenario. -/
def c9Market : Market :=
  { id := "m-9", slug := "mkt-9", asset := "BTC", start_time := 0, resolution_time := 1000 }

/-- The id/settlement pairing of a payout row (both fields are never
changed by any update in the retry pipeline). -/
def pairingOf (p : Payout) : ℕ × Option ℕ := (p.id, p.settlement_id)

/-- The membership predicate of `payouts.getBySettlement`. -/
def bySid (sid : ℕ) (q : Payout) : Bool := decide (q.settlement_id = some sid)

/-- Frame relation for the payout-retry pipeline, relative to a target
settlement `T`: the payout rows of `T`, the id/settlement pairing of all
payouts, the settlements table and the emergency flag are untouched. -/
def FrameEq (T : ℕ) (db db2 : Db) : Prop :=
  db2.payouts.filter (bySid T) = db.payouts.filter (bySid T) ∧
  db2.payouts.map pairingOf = db.payouts.map pairingOf ∧
  db2.settlements = db.settlements ∧
  db2.emergency_stopped = db.emergency_stopped

/-- Frame relation for the settlement loop of `retryFailedSettlements`,
as seen from a target settlement `T` while *other* settlements are
processed: `T`'s payout rows and `T`'s settlement rows are untouched, the
id/settlement pairing of all payouts is preserved, and the persisted
emergency-stop flag can only move towards `true` (nothing in the retry
pipeline ever clears it). -/
def SFrameEq (T : ℕ) (db db2 : Db) : Prop :=
  db2.payouts.filter (bySid T) = db.payouts.filter (bySid T) ∧
  db2.payouts.map pairingOf = db.payouts.map pairingOf ∧
  db2.settlements.filter (fun s => decide (s.id = T)) =
    db.settlements.filter (fun s => decide (s.id = T)) ∧
  (db.emergency_stopped = true → db2.emergency_stopped = true)

/-- A `distributing` settlement whose payouts have exhausted their
retries. -/
def c3Settlement : Settlement :=
  { id := 1, status := .distributing, triggered_at := 0, error_message := none }

/-- A payout of `c3Settlement` that has failed `MAX_PAYOUT_RETRIES`
times and is still not `sent`. -/
def c3Payout : Payout :=
  { id := 1
    user_id := "alice"
    settlement_id := some 1
    amount := 25
    status := .failed
    tx_hash := none
    tx_request := none
    rank := 1
    retry_count := 5
    last_retry_at := some 0
    error_message := some "insufficient funds" }

/-- A store holding exactly `c3Settlement` and `c3Payout`. -/
def c3Db : Db :=
  { initialDb with
      settlements := [c3Settlement]
      payouts := [c3Payout]
      nextSettlementId := 2
      nextPayoutId := 2 }

/-! ## Theorems -/

theorem jsRound_intCast (m : ℤ) : jsRound (m : ℚ) = m := by
  unfold jsRound
  rw [Int.floor_eq_iff]
  constructor
  · linarith
  · linarith

theorem floorToCents_mul_hundred (x : ℚ) :
    jsRound (floorToCents x * 100) = jsFloor (x * 100) := by
  have h : floorToCents x * 100 = ((jsFloor (x * 100) : ℤ) : ℚ) := by
    unfold floorToCents
    field_simp
  rw [h, jsRound_intCast]

/-- C4: for every positive total payout, every winner count in 1–3 and every
positive weight triple, `calculatePayoutAmounts` gives tier `i` the amount
`floor(totalCents × weight_i / sumOfActiveWeights)` cents, adds the whole
rounding remainder to the first-place amount, and the resulting amounts sum
exactly to `floor(totalProfit × payoutShare × 100)/100` dollars. -/
theorem calculatePayoutAmounts_exact_split
    (profit payoutShare : ℚ) (d : Distribution) (n : ℕ)
    (h1 : 0 < d.first) (h2 : 0 < d.second) (h3 : 0 < d.third)
    (hn1 : 1 ≤ n) (hn3 : n ≤ 3)
    (tp : ℚ) (htp : tp = floorToCents (profit * payoutShare)) (hpos : 0 < tp) :
    calculatePayoutAmounts tp d n =
      (List.range n).map (fun i =>
        (((if i = 0
          then tierFloorCents d n (jsFloor (profit * payoutShare * 100)) 0
               + payoutRemainder d n (jsFloor (profit * payoutShare * 100))
          else tierFloorCents d n (jsFloor (profit * payoutShare * 100)) i) : ℤ) : ℚ) / 100)
    ∧ (calculatePayoutAmounts tp d n).sum = tp
    ∧ tp = ((jsFloor (profit * payoutShare * 100) : ℤ) : ℚ) / 100 := by
  have hc : jsRound (tp * 100) = jsFloor (profit * payoutShare * 100) := by
    rw [htp]; exact floorToCents_mul_hundred _
  have htp' : tp = ((jsFloor (profit * payoutShare * 100) : ℤ) : ℚ) / 100 := by
    rw [htp]; unfold floorToCents; rfl
  have hW1 : ¬ ((0 : ℚ) + d.first ≤ 0) := by simp only [not_le]; linarith
  have hW2 : ¬ ((0 : ℚ) + d.first + d.second ≤ 0) := by simp only [not_le]; linarith
  have hW3 : ¬ ((0 : ℚ) + d.first + d.second + d.third ≤ 0) := by simp only [not_le]; linarith
  refine ⟨?_, ?_, htp'⟩
  · interval_cases n
    · simp only [calculatePayoutAmounts, tierFloorCents, payoutRemainder, activeWeightSum, hc,
        List.take, List.foldl, bumpHead, List.range_succ, List.range_zero,
        List.nil_append, List.cons_append, List.getD, List.get?, Option.getD_some,
        List.map_cons, List.map_nil, reduceIte]
      rw [if_neg (by decide), if_neg hW1]
      split_ifs with hrem
      all_goals try exact False.elim (by assumption)
      · simp only [bumpHead, List.map_cons, List.map_nil]
      · simp only [ne_eq, not_not] at hrem
        simp only [bumpHead, List.map_cons, List.map_nil, hrem, add_zero]
    · simp only [calculatePayoutAmounts, tierFloorCents, payoutRemainder, activeWeightSum, hc,
        List.take, List.foldl, bumpHead, List.range_succ, List.range_zero,
        List.nil_append, List.cons_append, List.getD, List.get?, Option.getD_some,
        List.map_cons, List.map_nil, reduceIte]
      rw [if_neg (by decide), if_neg hW2]
      split_ifs with hrem
      all_goals try exact False.elim (by assumption)
      · simp only [bumpHead, List.map_cons, List.map_nil]
      · simp only [ne_eq, not_not] at hrem
        simp only [bumpHead, List.map_cons, List.map_nil, hrem, add_zero]
    · simp only [calculatePayoutAmounts, tierFloorCents, payoutRemainder, activeWeightSum, hc,
        List.take, List.foldl, bumpHead, List.range_succ, List.range_zero,
        List.nil_append, List.cons_append, List.getD, List.get?, Option.getD_some,
        List.map_cons, List.map_nil, reduceIte]
      rw [if_neg (by decide), if_neg hW3]
      split_ifs with hrem
      all_goals try exact False.elim (by assumption)
      · simp only [bumpHead, List.map_cons, List.map_nil]
      · simp only [ne_eq, not_not] at hrem
        simp only [bumpHead, List.map_cons, List.map_nil, hrem, add_zero]
  · interval_cases n
    · simp only [calculatePayoutAmounts, tierFloorCents, payoutRemainder, activeWeightSum, hc,
        List.take, List.foldl, bumpHead, List.range_succ, List.range_zero,
        List.nil_append, List.cons_append, List.getD, List.get?, Option.getD_some,
        List.map_cons, List.map_nil, reduceIte]
      rw [if_neg (by decide), if_neg hW1]
      split_ifs with hrem
      all_goals try exact False.elim (by assumption)
      · simp only [bumpHead, List.map_cons, List.map_nil, List.sum_cons, List.sum_nil]
        rw [htp']
        push_cast
        ring
      · simp only [ne_eq, not_not] at hrem
        simp only [bumpHead, List.map_cons, List.map_nil, List.sum_cons, List.sum_nil]
        rw [htp']
        have hremQ := congrArg (fun z : ℤ => (z : ℚ)) hrem
        push_cast at hremQ
        push_cast
        linarith
    · simp only [calculatePayoutAmounts, tierFloorCents, payoutRemainder, activeWeightSum, hc,
        List.take, List.foldl, bumpHead, List.range_succ, List.range_zero,
        List.nil_append, List.cons_append, List.getD, List.get?, Option.getD_some,
        List.map_cons, List.map_nil, reduceIte]
      rw [if_neg (by decide), if_neg hW2]
      split_ifs with hrem
      all_goals try exact False.elim (by assumption)
      · simp only [bumpHead, List.map_cons, List.map_nil, List.sum_cons, List.sum_nil]
        rw [htp']
        push_cast
        ring
      · simp only [ne_eq, not_not] at hrem
        simp only [bumpHead, List.map_cons, List.map_nil, List.sum_cons, List.sum_nil]
        rw [htp']
        have hremQ := congrArg (fun z : ℤ => (z : ℚ)) hrem
        push_cast at hremQ
        push_cast
        linarith
    · simp only [calculatePayoutAmounts, tierFloorCents, payoutRemainder, activeWeightSum, hc,
        List.take, List.foldl, bumpHead, List.range_succ, List.range_zero,
        List.nil_append, List.cons_append, List.getD, List.get?, Option.getD_some,
        List.map_cons, List.map_nil, reduceIte]
      rw [if_neg (by decide), if_neg hW3]
      split_ifs with hrem
      all_goals try exact False.elim (by assumption)
      · simp only [bumpHead, List.map_cons, List.map_nil, List.sum_cons, List.sum_nil]
        rw [htp']
        push_cast
        ring
      · simp only [ne_eq, not_not] at hrem
        simp only [bumpHead, List.map_cons, List.map_nil, List.sum_cons, List.sum_nil]
        rw [htp']
        have hremQ := congrArg (fun z : ℤ => (z : ℚ)) hrem
        push_cast at hremQ
        push_cast
        linarith

/-- Witness for C4: profit $100, payout share 40 %, weights 5/3/2, three
winners — the split is exact. -/
theorem calculatePayoutAmounts_exact_split_witness :
    calculatePayoutAmounts 40 ⟨5, 3, 2⟩ 3 =
      (List.range 3).map (fun i =>
        (((if i = 0
          then tierFloorCents ⟨5, 3, 2⟩ 3 (jsFloor (100 * (2 / 5) * 100)) 0
               + payoutRemainder ⟨5, 3, 2⟩ 3 (jsFloor (100 * (2 / 5) * 100))
          else tierFloorCents ⟨5, 3, 2⟩ 3 (jsFloor (100 * (2 / 5) * 100)) i) : ℤ) : ℚ) / 100)
    ∧ (calculatePayoutAmounts 40 ⟨5, 3, 2⟩ 3).sum = 40
    ∧ (40 : ℚ) = ((jsFloor (100 * (2 / 5) * 100) : ℤ) : ℚ) / 100 :=
  calculatePayoutAmounts_exact_split 100 (2 / 5) ⟨5, 3, 2⟩ 3 (by norm_num) (by norm_num)
    (by norm_num) (by norm_num) (by norm_num) 40
    (by norm_num [floorToCents, jsFloor]) (by norm_num)

/-! ### C7 — emergency stop denies trade admission, surviving restarts -/

/-- C7: once the persisted emergency-stop flag is set, `canStartTrade`
returns `allowed: false` for either trigger kind, with the reason
"Bot is in emergency stop mode." (which names the emergency stop), and —
because the flag lives in the single-row persistent runtime state — the
same denial holds after a process restart reloads state from the store. -/
theorem canStartTrade_denies_after_emergency_stop
    (w : World) (cfg : Config) (ps : ProcState) (now : ℤ) (isUserProposal : Bool)
    (h : ps.store.emergency_stopped = true) :
    (canStartTrade w cfg ps.store now isUserProposal).allowed = false
    ∧ (canStartTrade w cfg ps.store now isUserProposal).reason =
        some ("Bot is in " ++ "emergency stop" ++ " mode.")
    ∧ canStartTrade w cfg (restartProcess ps).store now isUserProposal =
        canStartTrade w cfg ps.store now isUserProposal := by
  unfold canStartTrade isEmergencyStopped runtimeState.getEmergencyStopped restartProcess
  simp [h]

/-- Witness for C7 at a concrete stopped store. -/
theorem canStartTrade_denies_after_emergency_stop_witness :
    (canStartTrade defaultWorld defaultConfig stoppedDb 0 true).allowed = false
    ∧ (canStartTrade defaultWorld defaultConfig stoppedDb 0 true).reason =
        some ("Bot is in " ++ "emergency stop" ++ " mode.")
    ∧ canStartTrade defaultWorld defaultConfig
        (restartProcess ⟨stoppedDb, [3]⟩).store 0 true =
        canStartTrade defaultWorld defaultConfig stoppedDb 0 true :=
  canStartTrade_denies_after_emergency_stop defaultWorld defaultConfig
    ⟨stoppedDb, [3]⟩ 0 true rfl

/-! ### C10 — what the emergency stop actually halts -/

/-- C10 (amended): while the persisted emergency-stop flag is set, a
scheduler tick performs no state mutation at all — voting-window closure,
the daily and hourly scheduled-trade checks, the weekly payout check and
resolution polling are all skipped, so even already-executed trades are
not resolved by the tick. (Settlement retries are *not* gated by the
flag: see the counterexample.) -/
theorem tick_noop_when_emergency_stopped
    (w : World) (cfg : Config) (ps : ProcState) (now : ℤ)
    (h : ps.store.emergency_stopped = true) :
    tick w cfg ps now = ps := by
  unfold tick isEmergencyStopped runtimeState.getEmergencyStopped
  simp [h]

/-- Witness for the amended C10. -/
theorem tick_noop_when_emergency_stopped_witness :
    tick defaultWorld defaultConfig ⟨stoppedDb, []⟩ 17 = ⟨stoppedDb, []⟩ :=
  tick_noop_when_emergency_stopped defaultWorld defaultConfig ⟨stoppedDb, []⟩ 17 rfl

/-- Counterexample to C10 as stated: pending settlement retries DO run
while the emergency stop is set. The five-minute retry interval installed
in `bot/client.js` never consults the flag, and neither does
`retryFailedSettlements`; with the flag set it still mutates the store
(here: it marks the all-sent settlement `completed`). -/
theorem settlement_retries_run_despite_emergency_stop :
    c10Db.emergency_stopped = true
    ∧ (settlementRetryTick defaultWorld ⟨c10Db, []⟩ 0).store ≠ c10Db
    ∧ ((settlementRetryTick defaultWorld ⟨c10Db, []⟩ 0).store.settlements.map
        (fun s => s.status)) = [SettlementStatus.completed]
    ∧ c10Db.settlements.map (fun s => s.status) = [SettlementStatus.distributing] := by
  refine ⟨rfl, by decide, by decide, rfl⟩

/-! ### C5 — a redemption failure leaves the store untouched -/

/-- C5: for an executed trade whose market has resolved, if the redemption
call throws then resolution processing leaves the store exactly as it was:
the trade keeps status `executed` with its P&L still null, no prediction
correctness flag is set and no user streak or reputation weight moves, so
a later tick retries the same trade. -/
theorem resolveRound_redeem_failure_leaves_store
    (w : World) (cfg : Config) (db : Db) (tradeId : ℕ) (now : ℤ) (trade : Trade)
    (hfind : trades.getById db tradeId = some trade)
    (hstat : trade.status = TradeStatus.executed)
    (hres : (w.resolutionOf trade.polymarket_market_id).resolved = true)
    (hredeem : w.redeemFails (w.resolutionOf trade.polymarket_market_id).conditionId = true) :
    resolveRound w cfg db tradeId now = db
    ∧ trades.getById (resolveRound w cfg db tradeId now) tradeId = some trade := by
  have heq : resolveRound w cfg db tradeId now = db := by
    unfold resolveRound
    rw [hfind]
    simp [hstat, hres, hredeem]
  exact ⟨heq, by rw [heq, hfind]⟩

/-- Witness for C5: a concrete executed trade, resolved market, throwing
redemption — the store is unchanged and the trade still `executed` with
null P&L. -/
theorem resolveRound_redeem_failure_leaves_store_witness :
    resolveRound c5World defaultConfig c5Db 1 200 = c5Db
    ∧ trades.getById (resolveRound c5World defaultConfig c5Db 1 200) 1 = some c5Trade :=
  resolveRound_redeem_failure_leaves_store c5World defaultConfig c5Db 1 200 c5Trade
    (by decide) (by decide) rfl rfl

/-! ### C1 — at most one active trade, under any interleaving -/

theorem countP_map_eq_of {α : Type} (p : α → Bool) (f : α → α) (l : List α)
    (h : ∀ a ∈ l, p (f a) = p a) : (l.map f).countP p = l.countP p := by
  rw [List.countP_map]
  exact List.countP_congr (fun a ha => by simp [Function.comp, h a ha])

theorem countP_map_le_of {α : Type} (p : α → Bool) (f : α → α) (l : List α)
    (h : ∀ a ∈ l, p (f a) = true → p a = true) :
    (l.map f).countP p ≤ l.countP p := by
  rw [List.countP_map]
  exact List.countP_mono_left (fun a ha hpa => h a ha hpa)

theorem tradeInv_initial : TradeInv initialDb := by
  refine ⟨?_, ?_, ?_⟩ <;> simp [TradeInv, activeTradeCount, initialDb]

theorem tradeInv_step (db : Db) (op : TradeOp) (h : TradeInv db) :
    TradeInv (applyTradeOp db op) := by
  obtain ⟨hcount, hnodup, hbound⟩ := h
  cases op with
  | createOp p =>
    show TradeInv (trades.createIfNoActive db p).2
    unfold trades.createIfNoActive
    split_ifs with h1 h2
    · exact ⟨hcount, hnodup, hbound⟩
    · exact ⟨hcount, hnodup, hbound⟩
    · have hzero : db.trades.countP (fun t => isActiveStatus t.status) = 0 := by
        rw [List.countP_eq_zero]
        intro t ht
        cases hb : isActiveStatus t.status
        · simp [hb]
        · exact absurd (List.any_eq_true.mpr ⟨t, ht, hb⟩) h1
      refine ⟨?_, ?_, ?_⟩
      · show activeTradeCount _ ≤ 1
        unfold activeTradeCount
        rw [List.countP_append, hzero]
        simp [List.countP_cons, isActiveStatus]
      · show (List.map _ (db.trades ++ [_])).Nodup
        rw [List.map_append, List.nodup_append]
        refine ⟨hnodup, by simp, ?_⟩
        intro x hx
        simp only [List.mem_map] at hx
        obtain ⟨t, ht, hid⟩ := hx
        simp only [List.map_cons, List.map_nil, List.mem_singleton]
        intro heq
        have := hbound t ht
        omega
      · intro t ht
        rcases List.mem_append.mp ht with hl | hr
        · exact Nat.lt_succ_of_lt (hbound t hl)
        · simp only [List.mem_singleton] at hr
          subst hr
          exact Nat.lt_succ_self _
  | executeOp id pos orderId now =>
    show TradeInv (applyTradeOp db (.executeOp id pos orderId now))
    simp only [applyTradeOp]
    cases hfind : trades.getById db id with
    | none => exact ⟨hcount, hnodup, hbound⟩
    | some t =>
      show TradeInv (if t.status = TradeStatus.voting then
        trades.updateOrderId (trades.execute db id pos now) id orderId else db)
      by_cases hstat : t.status = TradeStatus.voting
      case neg =>
        rw [if_neg hstat]
        exact ⟨hcount, hnodup, hbound⟩
      case pos =>
        rw [if_pos hstat]
        have hmem : t ∈ db.trades ∧ t.id = id := by
          have h1 := List.find?_some hfind
          have h2 := List.mem_of_find?_eq_some hfind
          simp only [decide_eq_true_eq] at h1
          exact ⟨h2, h1⟩
        have huniq : ∀ s ∈ db.trades, s.id = id → s = t := by
          intro s hs hsid
          exact List.inj_on_of_nodup_map hnodup hs hmem.1
            (show s.id = t.id by rw [hsid, hmem.2])
        have htr : (trades.updateOrderId (trades.execute db id pos now) id orderId).trades =
            db.trades.map (fun s =>
              if s.id = id then
                { s with executed_position := some pos, status := TradeStatus.executed
                         executed_at := some now, clob_order_id := some orderId } else s) := by
          simp only [trades.updateOrderId, trades.execute, List.map_map]
          apply List.map_congr_left
          intro s _
          by_cases hsid : s.id = id <;> simp [hsid]
        refine ⟨?_, ?_, ?_⟩
        · show activeTradeCount _ ≤ 1
          unfold activeTradeCount
          rw [htr, countP_map_eq_of]
          · exact hcount
          · intro s hs
            by_cases hsid : s.id = id
            · have hst := huniq s hs hsid
              subst hst
              simp [hsid, isActiveStatus, hstat]
            · simp [hsid]
        · show (List.map _ _).Nodup
          rw [htr, List.map_map]
          have hfun : (fun t => Trade.id t) ∘ (fun s =>
              if s.id = id then
                { s with executed_position := some pos, status := TradeStatus.executed
                         executed_at := some now, clob_order_id := some orderId } else s) =
              fun t => Trade.id t := by
            funext s
            by_cases hsid : s.id = id <;> simp [hsid]
          rw [hfun]
          exact hnodup
        · intro s hs
          rw [htr] at hs
          simp only [List.mem_map] at hs
          obtain ⟨s0, hs0, hmap⟩ := hs
          have hb := hbound s0 hs0
          by_cases hsid : s0.id = id
          · rw [if_pos hsid] at hmap
            rw [← hmap]
            simpa
          · rw [if_neg hsid] at hmap
            rw [← hmap]
            exact hb
  | resolveOp id pnl now =>
    show TradeInv (applyTradeOp db (.resolveOp id pnl now))
    simp only [applyTradeOp]
    cases hfind : trades.getById db id with
    | none => exact ⟨hcount, hnodup, hbound⟩
    | some t =>
      show TradeInv (if t.status = TradeStatus.executed then
        trades.resolve db id pnl now else db)
      by_cases hstat : t.status = TradeStatus.executed
      case neg =>
        rw [if_neg hstat]
        exact ⟨hcount, hnodup, hbound⟩
      case pos =>
        rw [if_pos hstat]
        refine ⟨?_, ?_, ?_⟩
        · show activeTradeCount _ ≤ 1
          unfold activeTradeCount
          simp only [trades.resolve]
          refine le_trans (countP_map_le_of _ _ _ ?_) hcount
          intro s _ hact
          by_cases hsid : s.id = id
          · rw [if_pos hsid] at hact
            simp [isActiveStatus] at hact
          · rwa [if_neg hsid] at hact
        · show (List.map _ _).Nodup
          simp only [trades.resolve, List.map_map]
          have hfun : (fun t => Trade.id t) ∘ (fun s => if s.id = id then
              { s with pnl := some pnl, status := TradeStatus.resolved
                       resolved_at := some now } else s) = fun t => Trade.id t := by
            funext s
            by_cases hsid : s.id = id <;> simp [hsid]
          rw [hfun]
          exact hnodup
        · intro s hs
          simp only [trades.resolve, List.mem_map] at hs
          obtain ⟨s0, hs0, hmap⟩ := hs
          have hb := hbound s0 hs0
          by_cases hsid : s0.id = id
          · rw [if_pos hsid] at hmap
            rw [← hmap]
            simpa
          · rw [if_neg hsid] at hmap
            rw [← hmap]
            exact hb
  | deleteOp id =>
    show TradeInv (trades.deleteTrade db id)
    refine ⟨?_, ?_, ?_⟩
    · show activeTradeCount _ ≤ 1
      unfold activeTradeCount
      simp only [trades.deleteTrade]
      exact le_trans ((List.filter_sublist _).countP_le _) hcount
    · show (List.map _ _).Nodup
      simp only [trades.deleteTrade]
      exact List.Nodup.sublist ((List.filter_sublist _).map _) hnodup
    · intro s hs
      simp only [trades.deleteTrade] at hs
      exact hbound s (List.mem_of_mem_filter hs)

theorem tradeInv_run (ops : List TradeOp) :
    ∀ db : Db, TradeInv db → TradeInv (applyTradeOps db ops) := by
  induction ops with
  | nil => intro db h; exact h
  | cons op rest ih =>
    intro db h
    exact ih (applyTradeOp db op) (tradeInv_step db op h)

/-- C1: at every state reachable by any interleaving of trade-lifecycle
operations (atomic guarded creation, voting-rechecked execution,
executed-rechecked resolution, deletion), at most one trade has status
`voting` or `executed`; and `trades.createIfNoActive` re-checks for an
active trade inside its transaction and returns `null` without touching
the store whenever one exists. -/
theorem at_most_one_active_trade :
    (∀ ops : List TradeOp, activeTradeCount (applyTradeOps initialDb ops) ≤ 1)
    ∧ (∀ (db : Db) (p : CreateTradeParams),
        (trades.getActive db).isSome = true →
          trades.createIfNoActive db p = (none, db)) := by
  constructor
  · intro ops
    exact (tradeInv_run ops initialDb tradeInv_initial).1
  · intro db p h
    have hany : db.trades.any (fun t => isActiveStatus t.status) = true := by
      unfold trades.getActive at h
      rw [List.find?_isSome] at h
      rw [List.any_eq_true]
      obtain ⟨t, ht, hp⟩ := h
      exact ⟨t, ht, hp⟩
    unfold trades.createIfNoActive
    rw [if_pos hany]

/-- Witness for C1: two racing creations starting from the fresh store
leave at most one active trade, and a creation against a store holding a
voting trade returns `null` and leaves the store untouched. -/
theorem at_most_one_active_trade_witness :
    activeTradeCount (applyTradeOps initialDb
      [TradeOp.createOp sampleCreateParams, TradeOp.createOp sampleCreateParams]) ≤ 1
    ∧ trades.createIfNoActive c1ActiveDb sampleCreateParams = (none, c1ActiveDb) :=
  ⟨at_most_one_active_trade.1 [TradeOp.createOp sampleCreateParams,
      TradeOp.createOp sampleCreateParams],
   at_most_one_active_trade.2 c1ActiveDb sampleCreateParams (by decide)⟩

/-! ### C2 — no new settlement while one is incomplete -/

theorem insertLe_ne_nil {α : Type} (le : α → α → Bool) (x : α) (l : List α) :
    insertLe le x l ≠ [] := by
  cases l with
  | nil => simp [insertLe]
  | cons y ys =>
    simp only [insertLe]
    split_ifs <;> simp

theorem sortLe_eq_nil_iff {α : Type} (le : α → α → Bool) (l : List α) :
    sortLe le l = [] ↔ l = [] := by
  cases l with
  | nil => simp [sortLe]
  | cons x xs =>
    simp only [sortLe]
    constructor
    · intro h
      exact absurd h (insertLe_ne_nil le x _)
    · intro h
      exact absurd h (by simp)

/-- C2 (amended): the weekly-payout entry point refuses to create a
settlement while any settlement is incomplete — but that guard lives in
`handleWeeklyPayout`, which checks `settlements.getIncomplete()` and then
synchronously (with no awaited suspension in between) invokes
`runWeeklyPayouts`; the transaction inside `runWeeklyPayouts` itself
re-checks only profit, unsettled trades and winners. With an incomplete
settlement present, the weekly-payout pass leaves the store untouched. -/
theorem handleWeeklyPayout_requires_all_completed
    (w : World) (cfg : Config) (db : Db) (now : ℤ) (s : Settlement)
    (hs : s ∈ db.settlements) (hinc : s.status ≠ SettlementStatus.completed) :
    handleWeeklyPayout w cfg db now = db := by
  have hne : settlements.getIncomplete db ≠ [] := by
    unfold settlements.getIncomplete
    rw [Ne, sortLe_eq_nil_iff]
    intro hnil
    have : s ∈ db.settlements.filter (fun x => decide (x.status ≠ SettlementStatus.completed)) :=
      List.mem_filter.mpr ⟨hs, by simpa using hinc⟩
    rw [hnil] at this
    exact absurd this (List.not_mem_nil s)
  unfold handleWeeklyPayout
  simp [hne]

/-- Witness for the amended C2: with a failed settlement on file, the
weekly payout pass is a no-op. -/
theorem handleWeeklyPayout_requires_all_completed_witness :
    handleWeeklyPayout defaultWorld defaultConfig c2Db 99 = c2Db :=
  handleWeeklyPayout_requires_all_completed defaultWorld defaultConfig c2Db 99
    c2Settlement (by decide) (by decide)

/-- Counterexample to C2 as stated: the *transaction inside
`runWeeklyPayouts`* does not re-check settlement completeness. Run
directly against a store holding a failed settlement, it happily inserts
settlement 2. (In the deployed system the only caller,
`handleWeeklyPayout`, performs that check synchronously first.) -/
theorem weeklyPayout_transaction_ignores_incomplete_settlement :
    c2Db.settlements.map (fun s => s.status) = [SettlementStatus.failed]
    ∧ (runWeeklyPayoutsTxn defaultConfig c2Db 99).1 = some 2
    ∧ (runWeeklyPayoutsTxn defaultConfig c2Db 99).2.settlements.length = 2 := by
  refine ⟨rfl, ?_, ?_⟩ <;>
    norm_num [runWeeklyPayoutsTxn, trades.getUnsettledPnl, trades.getUnsettledTrades,
      c2Db, defaultConfig, initialDb, floorToCents, jsFloor, jsRound, sortLe, insertLe,
      users.getTopPredictorsForTrades, predCountsFor, winnerLe, calculatePayoutAmounts,
      settlements.create, settlements.updateStatus, updateSettlementRow,
      trades.linkToSettlement, createPayoutsLoop, payouts.create, bumpHead]

/-! ### C6 — conviction and position sizing at voting close -/

/-- C6 (amended): voting close computes conviction from *rounded*
percentages — `conviction = |upPercent − downPercent|/100` with
`upPercent = round(100·up/total)` and `downPercent = 100 − upPercent`,
i.e. `|2·round(100·up/total) − 100|/100` — not `|up−down|/total`; the
position size is `minSize + (maxSize − minSize) × conviction` of the pool
with a $1 floor; and on the worked example {UP:12, DOWN:8}, minSize 5 %
and maxSize 10 % of a $1000 pool, the size is $60. -/
theorem positionSize_conviction_interpolation
    (cfg : Config) (pool : ℚ) (up down : ℕ)
    (hm : cfg.min_position_pct ≠ 0) (hM : cfg.max_position_pct ≠ 0) :
    codeConviction up down =
      |2 * ((jsRound ((up : ℚ) / (((up + down : ℕ)) : ℚ) * 100)) : ℚ) - 100| / 100
    ∧ (∀ s, positionSizeOf cfg pool up down = some s →
        s = 1 ∨ s = pool * cfg.min_position_pct +
          (pool * cfg.max_position_pct - pool * cfg.min_position_pct) *
            codeConviction up down)
    ∧ positionSizeOf defaultConfig 1000 12 8 = some 60 := by
  refine ⟨?_, ?_, ?_⟩
  · unfold codeConviction votingPercents
    congr 1
    congr 1
    push_cast
    ring
  · intro s hs
    simp only [positionSizeOf, if_neg hm, if_neg hM] at hs
    split_ifs at hs with h1 h2
    · simp only [Option.some.injEq] at hs
      exact Or.inl hs.symm
    · simp only [Option.some.injEq] at hs
      exact Or.inr hs.symm
  · norm_num [positionSizeOf, codeConviction, votingPercents, jsRound, defaultConfig]

/-- Witness for C6 (amended), at the worked example. -/
theorem positionSize_conviction_interpolation_witness :
    (codeConviction 12 8 =
      |2 * ((jsRound ((12 : ℚ) / (((12 + 8 : ℕ)) : ℚ) * 100)) : ℚ) - 100| / 100)
    ∧ (∀ s, positionSizeOf defaultConfig 1000 12 8 = some s →
        s = 1 ∨ s = 1000 * defaultConfig.min_position_pct +
          (1000 * defaultConfig.max_position_pct - 1000 * defaultConfig.min_position_pct) *
            codeConviction 12 8)
    ∧ positionSizeOf defaultConfig 1000 12 8 = some 60 :=
  positionSize_conviction_interpolation defaultConfig 1000 12 8
    (by norm_num [defaultConfig]) (by norm_num [defaultConfig])

/-- Counterexample to C6 as stated: at the snapshotted tally
{UP:4, DOWN:2} (totalVotes = 6 ≥ the configured minimum 5) the code's
conviction is 0.34, not |4−2|/6 = 1/3, and the position size on a $1000
pool at 5 %/10 % is $67, not the $66.66… the claimed formula gives. -/
theorem conviction_rounding_counterexample :
    defaultConfig.min_votes ≤ 4 + 2
    ∧ codeConviction 4 2 ≠ |(4 : ℚ) - 2| / (4 + 2)
    ∧ positionSizeOf defaultConfig 1000 4 2 = some 67
    ∧ 1000 * defaultConfig.min_position_pct +
        (1000 * defaultConfig.max_position_pct - 1000 * defaultConfig.min_position_pct) *
          (|(4 : ℚ) - 2| / (4 + 2)) ≠ 67 := by
  refine ⟨by norm_num [defaultConfig], ?_, ?_, ?_⟩ <;>
    norm_num [codeConviction, votingPercents, jsRound, positionSizeOf, defaultConfig]

/-! ### C9 — tie-break determinism and recording -/

/-- C9: on a tied snapshot tally (10 UP / 10 DOWN), the direction chosen
at voting close is a pure function of the random draw — `UP` iff the draw
exceeds 1/2 — so two runs of voting close over the same snapshot with the
same draw (fixed seed) select the same direction; and the chosen
direction is recorded on the trade row as its executed position. -/
theorem closeVoting_tie_deterministic_and_recorded
    (w : World) (cfg : Config) (db : Db) (tradeId : ℕ) (m : Market) (now : ℤ)
    (trade : Trade) (s : ℚ)
    (hfind : trades.getById db tradeId = some trade)
    (hstat : trade.status = TradeStatus.voting)
    (hcounts : predictions.getVoteCounts
        (snapshotPredictionsFromReactions w db tradeId now) tradeId = (10, 10))
    (hmin : cfg.min_votes ≤ 20)
    (hpool : 0 < w.poolBalance)
    (hsz : positionSizeOf cfg w.poolBalance 10 10 = some s)
    (hexec : (w.executeTradeResult tradeId).success = true) :
    (closeVoting w cfg db tradeId (some m) now).2 =
      .executedTrade (if 1 / 2 < w.randTie tradeId then Direction.UP else Direction.DOWN) s
    ∧ ∀ t ∈ (closeVoting w cfg db tradeId (some m) now).1.trades,
        t.id = tradeId →
          t.executed_position =
            some (if 1 / 2 < w.randTie tradeId then Direction.UP else Direction.DOWN)
          ∧ t.status = TradeStatus.executed := by
  have hstatne : ¬ trade.status ≠ TradeStatus.voting := by simp [hstat]
  have hminlt : ¬ (10 + 10 < cfg.min_votes) := by omega
  have hpoolle : ¬ w.poolBalance ≤ 0 := not_le.mpr hpool
  have hexecn : ¬ ¬ (w.executeTradeResult tradeId).success = true := by simp [hexec]
  have hclose : closeVoting w cfg db tradeId (some m) now =
      (trades.updateOrderId
        (trades.execute (snapshotPredictionsFromReactions w db tradeId now) tradeId
          (chosenPosition 10 10 (w.randTie tradeId)) now)
        tradeId (w.executeTradeResult tradeId).orderID,
       .executedTrade (chosenPosition 10 10 (w.randTie tradeId)) s) := by
    simp only [closeVoting, hfind, hcounts, if_neg hstatne, if_neg hminlt,
      if_neg hpoolle, hsz, if_neg hexecn]
  have hdir : chosenPosition 10 10 (w.randTie tradeId) =
      (if 1 / 2 < w.randTie tradeId then Direction.UP else Direction.DOWN) := by
    unfold chosenPosition
    norm_num
  constructor
  · rw [hclose, hdir]
  · intro t ht htid
    rw [hclose] at ht
    simp only [trades.updateOrderId, trades.execute, List.map_map, List.mem_map] at ht
    obtain ⟨t0, _, hmap⟩ := ht
    by_cases hid0 : t0.id = tradeId
    · simp only [Function.comp, hid0, if_pos rfl] at hmap
      rw [← hmap] at htid ⊢
      simp [hdir]
    · simp only [Function.comp, if_neg hid0] at hmap
      rw [← hmap] at htid
      exact absurd htid hid0

/-- Witness for C9: the concrete 10/10 tie with fixed draw 3/4 — the
direction is UP and it is stored on the row. -/
theorem closeVoting_tie_deterministic_and_recorded_witness :
    (closeVoting c9World defaultConfig c9Db 1 (some c9Market) 0).2 =
      .executedTrade (if 1 / 2 < c9World.randTie 1 then Direction.UP else Direction.DOWN) 50
    ∧ ∀ t ∈ (closeVoting c9World defaultConfig c9Db 1 (some c9Market) 0).1.trades,
        t.id = 1 →
          t.executed_position =
            some (if 1 / 2 < c9World.randTie 1 then Direction.UP else Direction.DOWN)
          ∧ t.status = TradeStatus.executed :=
  closeVoting_tie_deterministic_and_recorded c9World defaultConfig c9Db 1 c9Market 0
    c9Trade 50 (by decide) rfl (by decide) (by decide)
    (by norm_num [c9World, defaultWorld])
    (by norm_num [positionSizeOf, codeConviction, votingPercents, jsRound, defaultConfig,
      c9World, defaultWorld])
    rfl

/-! ### C8 — stored transaction requests are reused verbatim -/

theorem map_updatePayoutRow {β : Type} (db : Db) (id : ℕ) (f : Payout → Payout)
    (g : Payout → β) (h : ∀ p, g (f p) = g p) :
    (updatePayoutRow db id f).payouts.map g = db.payouts.map g := by
  simp only [updatePayoutRow, List.map_map]
  apply List.map_congr_left
  intro p _
  by_cases hp : p.id = id <;> simp [hp, h]

theorem updateTxHash_preserves_txRequest (db : Db) (pid : ℕ) (h : Option String) :
    (payouts.updateTxHash db pid h).payouts.map (fun p => p.tx_request) =
      db.payouts.map (fun p => p.tx_request) := by
  unfold payouts.updateTxHash
  exact map_updatePayoutRow db pid _ _ (fun p => rfl)

theorem signAndBroadcast_preserves_txRequest (w : ChainWorld) (db : Db) (pid : ℕ)
    (t : TxRequest) :
    (signAndBroadcast w db pid t).2.payouts.map (fun p => p.tx_request) =
      db.payouts.map (fun p => p.tx_request) := by
  unfold signAndBroadcast
  cases w.broadcast t with
  | confirmed => exact updateTxHash_preserves_txRequest db pid _
  | revertedWait => exact updateTxHash_preserves_txRequest db pid _
  | errorReverted h =>
    exact (updateTxHash_preserves_txRequest _ pid _).trans
      (updateTxHash_preserves_txRequest db pid _)
  | errorOther h msg =>
    cases h with
    | none => exact updateTxHash_preserves_txRequest db pid _
    | some h2 =>
      exact (updateTxHash_preserves_txRequest _ pid _).trans
        (updateTxHash_preserves_txRequest db pid _)

/-- C8: for every valid transaction request,
`deserializeTxRequest(serializeTxRequest(tx))` reproduces the same `to`,
`data`, `value`, `nonce`, `gasLimit`, `chainId` and the type-dependent fee
fields (`gasPrice` for legacy type 0 — also when `type` was absent and is
normalized to 0 — and `maxFeePerGas`/`maxPriorityFeePerGas` for type 2);
and with a stored serialized request on the payout row, `sendUsdcPayout`
signs exactly that deserialized request instead of deriving a fresh one —
in particular it never overwrites any stored `tx_request`. -/
theorem txRequest_roundtrip_and_reuse (tx : TxRequest) (h : validTxRequest tx) :
    ∃ s : StoredTx, serializeTxRequest tx = some s
      ∧ deserializeTxRequest s = some
          { toAddr := tx.toAddr, callData := tx.callData, value := tx.value
            nonce := tx.nonce, gasLimit := tx.gasLimit, chainId := tx.chainId
            txType := some (if tx.txType = some 2 then 2 else 0)
            gasPrice := tx.gasPrice, maxFeePerGas := tx.maxFeePerGas
            maxPriorityFeePerGas := tx.maxPriorityFeePerGas }
      ∧ ∀ (w : ChainWorld) (db : Db) (pid : ℕ) (recipient : Option String) (amt : ℚ),
          w.isTestMode = false → w.walletConfigured = true → w.gasOk = true →
          w.usdcBalanceOk = true →
          sendUsdcPayout w db pid recipient amt (some s) =
            signAndBroadcast w db pid
              { toAddr := tx.toAddr, callData := tx.callData, value := tx.value
                nonce := tx.nonce, gasLimit := tx.gasLimit, chainId := tx.chainId
                txType := some (if tx.txType = some 2 then 2 else 0)
                gasPrice := tx.gasPrice, maxFeePerGas := tx.maxFeePerGas
                maxPriorityFeePerGas := tx.maxPriorityFeePerGas }
          ∧ (sendUsdcPayout w db pid recipient amt (some s)).2.payouts.map
              (fun p => p.tx_request) = db.payouts.map (fun p => p.tx_request) := by
  obtain ⟨h1, h2, h3, h4, h5, h6, hty⟩ := h
  obtain ⟨a1, ha1⟩ := Option.ne_none_iff_exists'.mp h1
  obtain ⟨a2, ha2⟩ := Option.ne_none_iff_exists'.mp h2
  obtain ⟨a3, ha3⟩ := Option.ne_none_iff_exists'.mp h3
  obtain ⟨a4, ha4⟩ := Option.ne_none_iff_exists'.mp h4
  obtain ⟨a5, ha5⟩ := Option.ne_none_iff_exists'.mp h5
  obtain ⟨a6, ha6⟩ := Option.ne_none_iff_exists'.mp h6
  rcases hty with ⟨ht2, hmf, hmp, hgp⟩ | ⟨ht0, hgp, hmf, hmp⟩
  · obtain ⟨mf, hmf'⟩ := Option.ne_none_iff_exists'.mp hmf
    obtain ⟨mp, hmp'⟩ := Option.ne_none_iff_exists'.mp hmp
    have hser : serializeTxRequest tx = some
        { toAddr := a1, callData := a2, value := a3, nonce := a4, gasLimit := a5
          chainId := a6, txType := 2, gasPrice := none
          maxFeePerGas := some mf, maxPriorityFeePerGas := some mp } := by
      simp [serializeTxRequest, ha1, ha2, ha3, ha4, ha5, ha6, ht2, hmf', hmp', hgp]
    refine ⟨_, hser, ?_, ?_⟩
    · simp [deserializeTxRequest, ha1, ha2, ha3, ha4, ha5, ha6, ht2, hmf', hmp', hgp]
    · intro w db pid recipient amt hT hW hG hU
      constructor
      · simp only [sendUsdcPayout, hT, hW, hG, hU, Bool.false_eq_true, not_true,
          Bool.true_eq_false, if_false, ite_false, ite_true, not_false_iff]
        simp [deserializeTxRequest, ha1, ha2, ha3, ha4, ha5, ha6, ht2, hmf', hmp', hgp]
      · have hsend : sendUsdcPayout w db pid recipient amt (some
            { toAddr := a1, callData := a2, value := a3, nonce := a4, gasLimit := a5
              chainId := a6, txType := 2, gasPrice := none
              maxFeePerGas := some mf, maxPriorityFeePerGas := some mp
              : StoredTx }) =
            signAndBroadcast w db pid
              { toAddr := some a1, callData := some a2, value := some a3
                nonce := some a4, gasLimit := some a5, chainId := some a6
                txType := some 2, gasPrice := none
                maxFeePerGas := some mf, maxPriorityFeePerGas := some mp } := by
          simp [sendUsdcPayout, hT, hW, hG, hU, deserializeTxRequest]
        rw [hsend, signAndBroadcast_preserves_txRequest]
  · obtain ⟨gp, hgp'⟩ := Option.ne_none_iff_exists'.mp hgp
    have hnot2 : ¬ tx.txType = some 2 := by
      rcases ht0 with h0 | h0 <;> simp [h0]
    have hser : serializeTxRequest tx = some
        { toAddr := a1, callData := a2, value := a3, nonce := a4, gasLimit := a5
          chainId := a6, txType := 0, gasPrice := some gp
          maxFeePerGas := none, maxPriorityFeePerGas := none } := by
      simp [serializeTxRequest, ha1, ha2, ha3, ha4, ha5, ha6, hnot2, ht0, hgp', hmf, hmp]
    refine ⟨_, hser, ?_, ?_⟩
    · simp [deserializeTxRequest, ha1, ha2, ha3, ha4, ha5, ha6, hnot2, hgp', hmf, hmp]
    · intro w db pid recipient amt hT hW hG hU
      constructor
      · simp only [sendUsdcPayout, hT, hW, hG, hU, Bool.false_eq_true, not_true,
          Bool.true_eq_false, if_false, ite_false, ite_true, not_false_iff]
        simp [deserializeTxRequest, ha1, ha2, ha3, ha4, ha5, ha6, hnot2, hgp', hmf, hmp]
      · have hsend : sendUsdcPayout w db pid recipient amt (some
            { toAddr := a1, callData := a2, value := a3, nonce := a4, gasLimit := a5
              chainId := a6, txType := 0, gasPrice := some gp
              maxFeePerGas := none, maxPriorityFeePerGas := none
              : StoredTx }) =
            signAndBroadcast w db pid
              { toAddr := some a1, callData := some a2, value := some a3
                nonce := some a4, gasLimit := some a5, chainId := some a6
                txType := some 0, gasPrice := some gp
                maxFeePerGas := none, maxPriorityFeePerGas := none } := by
          simp [sendUsdcPayout, hT, hW, hG, hU, deserializeTxRequest]
        rw [hsend, signAndBroadcast_preserves_txRequest]

/-- Witness for C8 at a concrete valid legacy request and the benign
chain oracle. -/
theorem txRequest_roundtrip_and_reuse_witness :
    ∃ s : StoredTx, serializeTxRequest legacyTxRequest = some s
      ∧ deserializeTxRequest s = some
          { toAddr := legacyTxRequest.toAddr, callData := legacyTxRequest.callData
            value := legacyTxRequest.value, nonce := legacyTxRequest.nonce
            gasLimit := legacyTxRequest.gasLimit, chainId := legacyTxRequest.chainId
            txType := some (if legacyTxRequest.txType = some 2 then 2 else 0)
            gasPrice := legacyTxRequest.gasPrice
            maxFeePerGas := legacyTxRequest.maxFeePerGas
            maxPriorityFeePerGas := legacyTxRequest.maxPriorityFeePerGas }
      ∧ ∀ (w : ChainWorld) (db : Db) (pid : ℕ) (recipient : Option String) (amt : ℚ),
          w.isTestMode = false → w.walletConfigured = true → w.gasOk = true →
          w.usdcBalanceOk = true →
          sendUsdcPayout w db pid recipient amt (some s) =
            signAndBroadcast w db pid
              { toAddr := legacyTxRequest.toAddr, callData := legacyTxRequest.callData
                value := legacyTxRequest.value, nonce := legacyTxRequest.nonce
                gasLimit := legacyTxRequest.gasLimit, chainId := legacyTxRequest.chainId
                txType := some (if legacyTxRequest.txType = some 2 then 2 else 0)
                gasPrice := legacyTxRequest.gasPrice
                maxFeePerGas := legacyTxRequest.maxFeePerGas
                maxPriorityFeePerGas := legacyTxRequest.maxPriorityFeePerGas }
          ∧ (sendUsdcPayout w db pid recipient amt (some s)).2.payouts.map
              (fun p => p.tx_request) = db.payouts.map (fun p => p.tx_request) :=
  txRequest_roundtrip_and_reuse legacyTxRequest (by simp [validTxRequest, legacyTxRequest])

/-! ### C3 — exhausted payout retries fail the settlement and trip the
emergency stop (frame lemmas first) -/

theorem frameEq_refl (T : ℕ) (db : Db) : FrameEq T db db :=
  ⟨rfl, rfl, rfl, rfl⟩

theorem frameEq_trans {T : ℕ} {db db2 db3 : Db}
    (h1 : FrameEq T db db2) (h2 : FrameEq T db2 db3) : FrameEq T db db3 :=
  ⟨h2.1.trans h1.1, h2.2.1.trans h1.2.1, h2.2.2.1.trans h1.2.2.1,
   h2.2.2.2.trans h1.2.2.2⟩

theorem hpd_transport {T pid : ℕ} {db db2 : Db}
    (hmap : db2.payouts.map pairingOf = db.payouts.map pairingOf)
    (hpd : ∀ q ∈ db.payouts, q.id = pid → ¬ q.settlement_id = some T) :
    ∀ q ∈ db2.payouts, q.id = pid → ¬ q.settlement_id = some T := by
  intro q hq hid hsid
  have hmem : pairingOf q ∈ db2.payouts.map pairingOf := List.mem_map_of_mem _ hq
  rw [hmap] at hmem
  obtain ⟨q0, hq0, heq⟩ := List.mem_map.mp hmem
  have hid0 : q0.id = q.id := congrArg Prod.fst heq
  have hsid0 : q0.settlement_id = q.settlement_id := congrArg Prod.snd heq
  exact hpd q0 hq0 (hid0.trans hid) (hsid0.trans hsid)

theorem filter_map_guarded (l : List Payout) (pid T : ℕ) (f : Payout → Payout)
    (hfsid : ∀ p, (f p).settlement_id = p.settlement_id)
    (hp : ∀ q ∈ l, q.id = pid → ¬ q.settlement_id = some T) :
    (l.map (fun p => if p.id = pid then f p else p)).filter (bySid T) =
      l.filter (bySid T) := by
  induction l with
  | nil => rfl
  | cons q rest ih =>
    have ihr := ih (fun q' hq' => hp q' (by simp [hq']))
    simp only [List.map_cons, List.filter_cons]
    by_cases hq : q.id = pid
    · have hnot : ¬ q.settlement_id = some T := hp q (by simp) hq
      rw [if_pos hq]
      have h1 : bySid T (f q) = false := by simp [bySid, hfsid, hnot]
      have h2 : bySid T q = false := by simp [bySid, hnot]
      rw [h1, h2]
      simp only [Bool.false_eq_true, if_false]
      exact ihr
    · rw [if_neg hq]
      cases hbq : bySid T q <;> simp [hbq, ihr]

theorem updatePayoutRow_frame (db : Db) (pid : ℕ) (f : Payout → Payout) (T : ℕ)
    (hfid : ∀ p, (f p).id = p.id) (hfsid : ∀ p, (f p).settlement_id = p.settlement_id)
    (hpd : ∀ q ∈ db.payouts, q.id = pid → ¬ q.settlement_id = some T) :
    FrameEq T db (updatePayoutRow db pid f) := by
  refine ⟨?_, ?_, rfl, rfl⟩
  · exact filter_map_guarded db.payouts pid T f hfsid hpd
  · show (db.payouts.map _).map pairingOf = db.payouts.map pairingOf
    rw [List.map_map]
    apply List.map_congr_left
    intro p _
    by_cases hq : p.id = pid <;> simp [hq, pairingOf, hfid, hfsid]

theorem updateStatus_frame (db : Db) (pid : ℕ) (st : PayoutStatus) (T : ℕ)
    (hpd : ∀ q ∈ db.payouts, q.id = pid → ¬ q.settlement_id = some T) :
    FrameEq T db (payouts.updateStatus db pid st) := by
  unfold payouts.updateStatus
  exact updatePayoutRow_frame db pid _ T (fun p => rfl) (fun p => rfl) hpd

theorem updateTxHash_frame (db : Db) (pid : ℕ) (h : Option String) (T : ℕ)
    (hpd : ∀ q ∈ db.payouts, q.id = pid → ¬ q.settlement_id = some T) :
    FrameEq T db (payouts.updateTxHash db pid h) := by
  unfold payouts.updateTxHash
  exact updatePayoutRow_frame db pid _ T (fun p => rfl) (fun p => rfl) hpd

theorem updateTxRequest_frame (db : Db) (pid : ℕ) (r : Option StoredTx) (T : ℕ)
    (hpd : ∀ q ∈ db.payouts, q.id = pid → ¬ q.settlement_id = some T) :
    FrameEq T db (payouts.updateTxRequest db pid r) := by
  unfold payouts.updateTxRequest
  exact updatePayoutRow_frame db pid _ T (fun p => rfl) (fun p => rfl) hpd

theorem incrementRetry_frame (db : Db) (pid : ℕ) (msg : String) (now : ℤ) (T : ℕ)
    (hpd : ∀ q ∈ db.payouts, q.id = pid → ¬ q.settlement_id = some T) :
    FrameEq T db (payouts.incrementRetry db pid msg now) := by
  unfold payouts.incrementRetry
  exact updatePayoutRow_frame db pid _ T (fun p => rfl) (fun p => rfl) hpd

theorem signAndBroadcast_frame (w : ChainWorld) (db : Db) (pid : ℕ) (t : TxRequest)
    (T : ℕ) (hpd : ∀ q ∈ db.payouts, q.id = pid → ¬ q.settlement_id = some T) :
    FrameEq T db (signAndBroadcast w db pid t).2 := by
  unfold signAndBroadcast
  have F1 := updateTxHash_frame db pid (some (w.hashOf t)) T hpd
  have hpd1 := hpd_transport F1.2.1 hpd
  cases w.broadcast t with
  | confirmed => exact F1
  | revertedWait => exact F1
  | errorReverted h => exact frameEq_trans F1 (updateTxHash_frame _ pid (some h) T hpd1)
  | errorOther h msg =>
    cases h with
    | none => exact F1
    | some h2 => exact frameEq_trans F1 (updateTxHash_frame _ pid (some h2) T hpd1)

theorem sendUsdcPayout_frame (w : ChainWorld) (db : Db) (pid : ℕ)
    (recipient : Option String) (amt : ℚ) (sr : Option StoredTx) (T : ℕ)
    (hpd : ∀ q ∈ db.payouts, q.id = pid → ¬ q.settlement_id = some T) :
    FrameEq T db (sendUsdcPayout w db pid recipient amt sr).2 := by
  unfold sendUsdcPayout
  split_ifs
  all_goals try exact frameEq_refl T db
  cases sr with
  | some stored =>
    dsimp only
    cases hd : deserializeTxRequest stored with
    | some t => exact signAndBroadcast_frame w db pid t T hpd
    | none => exact frameEq_refl T db
  | none =>
    dsimp only
    cases recipient with
    | none => exact frameEq_refl T db
    | some addr =>
      dsimp only
      cases hs : serializeTxRequest (normalizeDerived w (w.deriveTx addr amt)) with
      | some s =>
        have F1 := updateTxRequest_frame db pid (some s) T hpd
        have hpd1 := hpd_transport F1.2.1 hpd
        exact frameEq_trans F1
          (signAndBroadcast_frame w _ pid (normalizeDerived w (w.deriveTx addr amt)) T hpd1)
      | none => exact frameEq_refl T db

theorem reconcilePayoutTx_frame (w : ChainWorld) (db : Db) (p : Payout) (now : ℤ)
    (T : ℕ) (hpd : ∀ q ∈ db.payouts, q.id = p.id → ¬ q.settlement_id = some T) :
    FrameEq T db (reconcilePayoutTx w db p now).2 := by
  unfold reconcilePayoutTx
  cases p.tx_hash with
  | none => exact frameEq_refl T db
  | some h =>
    dsimp only
    cases w.receiptFor h with
    | noReceiptTxKnown => exact frameEq_refl T db
    | missing => exact frameEq_refl T db
    | threw => exact frameEq_refl T db
    | successReceipt => exact updateStatus_frame db p.id .sent T hpd
    | revertedReceipt =>
      have F1 := updateStatus_frame db p.id .failed T hpd
      have hpd1 := hpd_transport F1.2.1 hpd
      have F2 := incrementRetry_frame _ p.id "Transaction reverted" now T hpd1
      have F12 := frameEq_trans F1 F2
      have hpd2 := hpd_transport F12.2.1 hpd
      have F3 := updateTxHash_frame _ p.id none T hpd2
      have F123 := frameEq_trans F12 F3
      have hpd3 := hpd_transport F123.2.1 hpd
      exact frameEq_trans F123 (updateTxRequest_frame _ p.id none T hpd3)

theorem processPayout_frame (w : ChainWorld) (db : Db) (p : Payout) (now : ℤ) (T : ℕ)
    (hpd : ∀ q ∈ db.payouts, q.id = p.id → ¬ q.settlement_id = some T) :
    FrameEq T db (processPayout w db p now).2 := by
  unfold processPayout
  by_cases hsent : p.status = PayoutStatus.sent
  · rw [if_pos hsent]
    exact frameEq_refl T db
  · rw [if_neg hsent]
    rcases hr : reconcilePayoutTx w db p now with ⟨st, db1⟩
    have F1 : FrameEq T db db1 := by
      have := reconcilePayoutTx_frame w db p now T hpd
      rwa [hr] at this
    have hpd1 := hpd_transport F1.2.1 hpd
    cases st with
    | sentTx =>
      dsimp only
      exact F1
    | pendingTx =>
      dsimp only
      exact F1
    | failedTx =>
      dsimp only
      exact F1
    | missingTx =>
      dsimp only
      cases p.tx_request with
      | some s =>
        dsimp only
        rcases hs : sendUsdcPayout w db1 p.id none p.amount (some s) with ⟨r, db2⟩
        have F2 : FrameEq T db1 db2 := by
          have := sendUsdcPayout_frame w db1 p.id none p.amount (some s) T hpd1
          rwa [hs] at this
        have F12 := frameEq_trans F1 F2
        have hpd2 := hpd_transport F12.2.1 hpd
        by_cases hb1 : r.pending = true
        · rw [if_pos hb1]
          exact F12
        · rw [if_neg hb1]
          by_cases hb2 : r.success = true
          · rw [if_pos hb2]
            exact frameEq_trans F12 (updateStatus_frame db2 p.id .sent T hpd2)
          · rw [if_neg hb2]
            have F3 := updateStatus_frame db2 p.id .failed T hpd2
            have F123 := frameEq_trans F12 F3
            have hpd3 := hpd_transport F123.2.1 hpd
            exact frameEq_trans F123
              (incrementRetry_frame _ p.id (r.error.getD "Unknown error") now T hpd3)
      | none =>
        dsimp only
        exact F1
    | noHash =>
      dsimp only
      cases hw : (users.get db1 p.user_id).bind (fun u => u.wallet_address) with
      | none =>
        dsimp only
        have F2 := updateStatus_frame db1 p.id .failed T hpd1
        have F12 := frameEq_trans F1 F2
        have hpd2 := hpd_transport F12.2.1 hpd
        exact frameEq_trans F12 (incrementRetry_frame _ p.id "No wallet address" now T hpd2)
      | some addr =>
        dsimp only
        rcases hs : sendUsdcPayout w db1 p.id (some addr) p.amount p.tx_request with ⟨r, db2⟩
        have F2 : FrameEq T db1 db2 := by
          have := sendUsdcPayout_frame w db1 p.id (some addr) p.amount p.tx_request T hpd1
          rwa [hs] at this
        have F12 := frameEq_trans F1 F2
        have hpd2 := hpd_transport F12.2.1 hpd
        by_cases hb1 : r.pending = true
        · rw [if_pos hb1]
          exact F12
        · rw [if_neg hb1]
          by_cases hb2 : r.success = true
          · rw [if_pos hb2]
            exact frameEq_trans F12 (updateStatus_frame db2 p.id .sent T hpd2)
          · rw [if_neg hb2]
            have F3 := updateStatus_frame db2 p.id .failed T hpd2
            have F123 := frameEq_trans F12 F3
            have hpd3 := hpd_transport F123.2.1 hpd
            have F4 := incrementRetry_frame _ p.id (r.error.getD "Unknown error") now T hpd3
            have F1234 := frameEq_trans F123 F4
            have hpd4 := hpd_transport F1234.2.1 hpd
            by_cases hb3 : r.failed = true ∧ r.txHash ≠ none
            · rw [if_pos hb3]
              have F5 := updateTxHash_frame _ p.id none T hpd4
              have F12345 := frameEq_trans F1234 F5
              have hpd5 := hpd_transport F12345.2.1 hpd
              exact frameEq_trans F12345 (updateTxRequest_frame _ p.id none T hpd5)
            · rw [if_neg hb3]
              exact F1234

theorem sframeEq_refl (T : ℕ) (db : Db) : SFrameEq T db db :=
  ⟨rfl, rfl, rfl, fun h => h⟩

theorem sframeEq_trans {T : ℕ} {db db2 db3 : Db}
    (h1 : SFrameEq T db db2) (h2 : SFrameEq T db2 db3) : SFrameEq T db db3 :=
  ⟨h2.1.trans h1.1, h2.2.1.trans h1.2.1, h2.2.2.1.trans h1.2.2.1,
   fun h => h2.2.2.2 (h1.2.2.2 h)⟩

theorem frameEq_sframe {T : ℕ} {db db2 : Db} (h : FrameEq T db db2) :
    SFrameEq T db db2 :=
  ⟨h.1, h.2.1, by rw [h.2.2.1], fun hf => h.2.2.2.trans hf⟩

theorem sframe_pids {T : ℕ} {db db2 : Db} (h : SFrameEq T db db2) :
    db2.payouts.map (fun p => p.id) = db.payouts.map (fun p => p.id) := by
  have h2 := congrArg (List.map Prod.fst) h.2.1
  rw [List.map_map, List.map_map] at h2
  exact h2

theorem settlements_filter_map_ne (l : List Settlement) (sid T : ℕ) (hne : sid ≠ T)
    (f : Settlement → Settlement) (hf : ∀ s, (f s).id = s.id) :
    (l.map (fun s => if s.id = sid then f s else s)).filter
        (fun s => decide (s.id = T)) =
      l.filter (fun s => decide (s.id = T)) := by
  induction l with
  | nil => rfl
  | cons s rest ih =>
    simp only [List.map_cons, List.filter_cons]
    by_cases hsid : s.id = sid
    · rw [if_pos hsid]
      have h1 : decide ((f s).id = T) = false :=
        decide_eq_false (by rw [hf s, hsid]; exact hne)
      have h2 : decide (s.id = T) = false :=
        decide_eq_false (by rw [hsid]; exact hne)
      rw [h1, h2]
      simpa using ih
    · rw [if_neg hsid]
      cases hd : decide (s.id = T) <;> simp [hd, ih]

theorem updateStatus_settlement_sframe (db : Db) (sid T : ℕ) (st : SettlementStatus)
    (msg : Option String) (hne : sid ≠ T) :
    SFrameEq T db (settlements.updateStatus db sid st msg) := by
  refine ⟨rfl, rfl, ?_, fun h => h⟩
  simp only [settlements.updateStatus, updateSettlementRow]
  exact settlements_filter_map_ne db.settlements sid T hne _ (fun s => rfl)

theorem trigger_sframe (db : Db) (sid T : ℕ) (r : String) (hne : sid ≠ T) :
    SFrameEq T db (triggerPayoutEmergencyStop db sid r) := by
  refine ⟨rfl, rfl, ?_, fun h => rfl⟩
  simp only [triggerPayoutEmergencyStop, runtimeState.setEmergencyStopped,
    settlements.updateStatus, updateSettlementRow]
  exact settlements_filter_map_ne db.settlements sid T hne _ (fun s => rfl)

theorem trigger_flag (db : Db) (sid : ℕ) (r : String) :
    (triggerPayoutEmergencyStop db sid r).emergency_stopped = true := rfl

theorem trigger_marks_failed (db : Db) (sid : ℕ) (r : String) :
    ∀ s ∈ (triggerPayoutEmergencyStop db sid r).settlements, s.id = sid →
      s.status = SettlementStatus.failed := by
  intro s hs hsid
  simp only [triggerPayoutEmergencyStop, runtimeState.setEmergencyStopped,
    settlements.updateStatus, updateSettlementRow] at hs
  obtain ⟨t, ht, heq⟩ := List.mem_map.mp hs
  by_cases htid : t.id = sid
  · rw [if_pos htid] at heq
    rw [← heq]
  · rw [if_neg htid] at heq
    rw [← heq] at hsid
    exact absurd hsid htid

theorem trigger_row_exists (db : Db) (sid : ℕ) (r : String)
    (h : ∃ s ∈ db.settlements, s.id = sid) :
    ∃ s ∈ (triggerPayoutEmergencyStop db sid r).settlements, s.id = sid := by
  obtain ⟨s, hs, hsid⟩ := h
  have hmem : (fun t => if t.id = sid then
      { t with status := SettlementStatus.failed,
               error_message := some ("Emergency stop triggered - " ++ r) } else t) s ∈
      (triggerPayoutEmergencyStop db sid r).settlements := by
    simp only [triggerPayoutEmergencyStop, runtimeState.setEmergencyStopped,
      settlements.updateStatus, updateSettlementRow]
    exact List.mem_map_of_mem _ hs
  refine ⟨_, hmem, ?_⟩
  dsimp only
  rw [if_pos hsid]
  exact hsid

theorem insertLe_perm {α : Type} (le : α → α → Bool) (x : α) :
    ∀ l : List α, (insertLe le x l).Perm (x :: l)
  | [] => List.Perm.refl _
  | y :: ys => by
    rw [insertLe]
    by_cases h : le x y
    · rw [if_pos h]
    · rw [if_neg h]
      exact ((insertLe_perm le x ys).cons y).trans (List.Perm.swap x y ys)

theorem sortLe_perm {α : Type} (le : α → α → Bool) :
    ∀ l : List α, (sortLe le l).Perm l
  | [] => List.Perm.refl _
  | x :: xs =>
    (insertLe_perm le x (sortLe le xs)).trans ((sortLe_perm le xs).cons x)

theorem retryPayoutsLoop_frame (w : ChainWorld) (now : ℤ) (T : ℕ) :
    ∀ (ps : List Payout) (db : Db),
      (∀ p ∈ ps, ∀ q ∈ db.payouts, q.id = p.id → ¬ q.settlement_id = some T) →
      FrameEq T db (retryPayoutsLoop w now db ps) := by
  intro ps
  induction ps with
  | nil =>
    intro db _
    exact frameEq_refl T db
  | cons p rest ih =>
    intro db h
    simp only [retryPayoutsLoop]
    split_ifs with hd
    · exact ih db (fun r hr => h r (List.mem_cons_of_mem p hr))
    · have hp := h p (List.mem_cons_self p rest)
      have F1 := processPayout_frame w db p now T hp
      refine frameEq_trans F1 (ih _ ?_)
      intro r hr
      exact hpd_transport F1.2.1 (h r (List.mem_cons_of_mem p hr))

theorem retryOneSettlement_sframe (w : ChainWorld) (db : Db) (sid T : ℕ) (now : ℤ)
    (hne : sid ≠ T) (hpids : (db.payouts.map (fun p => p.id)).Nodup) :
    SFrameEq T db (retryOneSettlement w db sid now) := by
  have hloop : ∀ p ∈ ((payouts.getBySettlement db sid).filter
        (fun p => p.status ≠ PayoutStatus.sent)).filter
        (fun p => p.retry_count < MAX_PAYOUT_RETRIES),
      ∀ q ∈ db.payouts, q.id = p.id → ¬ q.settlement_id = some T := by
    intro p hp q hq hid hqs
    have hp2 : p ∈ payouts.getBySettlement db sid :=
      List.mem_of_mem_filter (List.mem_of_mem_filter hp)
    simp only [payouts.getBySettlement] at hp2
    have hp3 : p ∈ db.payouts := List.mem_of_mem_filter hp2
    have hpsid : p.settlement_id = some sid := by
      have := (List.mem_filter.mp hp2).2
      exact of_decide_eq_true this
    have hqp : q = p :=
      List.inj_on_of_nodup_map hpids hq hp3 (by simpa using hid)
    rw [hqp, hpsid] at hqs
    exact hne (Option.some.inj hqs)
  have F := frameEq_sframe (retryPayoutsLoop_frame w now T _ db hloop)
  simp only [retryOneSettlement]
  split_ifs with h1 h2 h3 h4 h5
  · exact trigger_sframe db sid T _ hne
  · exact updateStatus_settlement_sframe db sid T _ _ hne
  · exact trigger_sframe db sid T _ hne
  · exact sframeEq_trans F (updateStatus_settlement_sframe _ sid T _ _ hne)
  · exact sframeEq_trans F (trigger_sframe _ sid T _ hne)
  · exact F

theorem retryOneSettlement_triggers (w : ChainWorld) (db : Db) (T : ℕ) (now : ℤ)
    (hex : ∃ p ∈ payouts.getBySettlement db T,
      p.status ≠ PayoutStatus.sent ∧ MAX_PAYOUT_RETRIES ≤ p.retry_count)
    (hall : ∀ p ∈ payouts.getBySettlement db T, MAX_PAYOUT_RETRIES ≤ p.retry_count) :
    retryOneSettlement w db T now =
      triggerPayoutEmergencyStop db T "All payout retries exhausted" := by
  obtain ⟨p, hp, hps, hpr⟩ := hex
  have h1 : ¬ payouts.getBySettlement db T = [] := by
    intro h
    rw [h] at hp
    exact absurd hp (List.not_mem_nil p)
  have hpend : p ∈ (payouts.getBySettlement db T).filter
      (fun q => q.status ≠ PayoutStatus.sent) :=
    List.mem_filter.mpr ⟨hp, by simpa using hps⟩
  have h2 : ¬ (payouts.getBySettlement db T).filter
      (fun q => q.status ≠ PayoutStatus.sent) = [] := by
    intro h
    rw [h] at hpend
    exact absurd hpend (List.not_mem_nil p)
  have h3 : ((payouts.getBySettlement db T).filter
      (fun q => q.status ≠ PayoutStatus.sent)).filter
      (fun q => q.retry_count < MAX_PAYOUT_RETRIES) = [] := by
    rw [List.filter_eq_nil_iff]
    intro q hq
    have hq' : q ∈ payouts.getBySettlement db T := List.mem_of_mem_filter hq
    simpa using Nat.not_lt.mpr (hall q hq')
  simp only [retryOneSettlement]
  rw [if_neg h1, if_neg h2, if_pos h3]

theorem retrySettlementsLoop_append (w : ChainWorld) (now : ℤ) :
    ∀ (l1 l2 : List ℕ) (db : Db),
      retrySettlementsLoop w now db (l1 ++ l2) =
        retrySettlementsLoop w now (retrySettlementsLoop w now db l1) l2 := by
  intro l1
  induction l1 with
  | nil =>
    intro l2 db
    rfl
  | cons s rest ih =>
    intro l2 db
    simp only [List.cons_append, retrySettlementsLoop]
    exact ih l2 _

theorem retrySettlementsLoop_sframe (w : ChainWorld) (now : ℤ) (T : ℕ) :
    ∀ (sids : List ℕ) (db : Db), (∀ sid ∈ sids, sid ≠ T) →
      (db.payouts.map (fun p => p.id)).Nodup →
      SFrameEq T db (retrySettlementsLoop w now db sids) := by
  intro sids
  induction sids with
  | nil =>
    intro db _ _
    exact sframeEq_refl T db
  | cons sid rest ih =>
    intro db hne hpids
    simp only [retrySettlementsLoop]
    have F1 := retryOneSettlement_sframe w db sid T now
      (hne sid (List.mem_cons_self sid rest)) hpids
    have hpids1 : ((retryOneSettlement w db sid now).payouts.map
        (fun p => p.id)).Nodup := by
      rw [sframe_pids F1]
      exact hpids
    exact sframeEq_trans F1
      (ih _ (fun s hs => hne s (List.mem_cons_of_mem sid hs)) hpids1)

theorem mem_getIncomplete {db : Db} {s : Settlement} (hs : s ∈ db.settlements)
    (hst : s.status ≠ SettlementStatus.completed) :
    s ∈ settlements.getIncomplete db := by
  unfold settlements.getIncomplete
  exact (sortLe_perm _ _).mem_iff.mpr
    (List.mem_filter.mpr ⟨hs, by simpa using hst⟩)

theorem getIncomplete_ids_nodup {db : Db}
    (h : (db.settlements.map (fun s => s.id)).Nodup) :
    ((settlements.getIncomplete db).map (fun s => s.id)).Nodup := by
  unfold settlements.getIncomplete
  have hperm := sortLe_perm (fun a b => decide (a.triggered_at ≤ b.triggered_at))
    (db.settlements.filter (fun s => s.status ≠ SettlementStatus.completed))
  have hsub : ((db.settlements.filter
        (fun s => s.status ≠ SettlementStatus.completed)).map
        (fun s => s.id)).Sublist (db.settlements.map (fun s => s.id)) :=
    (List.filter_sublist _).map _
  exact ((hperm.map _).nodup_iff).mpr (List.Nodup.sublist hsub h)

/-- C3. For every settlement, if some payout's retry count has reached
`MAX_PAYOUT_RETRIES` (5) while its status is still not `sent`, and no
payout of that settlement remains below the retry cap, then the
settlement-retry pass `retryFailedSettlements` marks that settlement
`failed` and sets the persisted emergency-stop flag to `true`. -/
theorem retry_pass_exhausted_payouts_fail_settlement
    (w : ChainWorld) (db : Db) (now : ℤ) (T : ℕ)
    (hsids : (db.settlements.map (fun s => s.id)).Nodup)
    (hpids : (db.payouts.map (fun p => p.id)).Nodup)
    (hrow : ∃ s ∈ db.settlements, s.id = T ∧ s.status ≠ SettlementStatus.completed)
    (hex : ∃ p ∈ payouts.getBySettlement db T,
      p.status ≠ PayoutStatus.sent ∧ MAX_PAYOUT_RETRIES ≤ p.retry_count)
    (hall : ∀ p ∈ payouts.getBySettlement db T,
      MAX_PAYOUT_RETRIES ≤ p.retry_count) :
    (retryFailedSettlements w db now).emergency_stopped = true ∧
    (∃ s ∈ (retryFailedSettlements w db now).settlements, s.id = T) ∧
    (∀ s ∈ (retryFailedSettlements w db now).settlements, s.id = T →
      s.status = SettlementStatus.failed) := by
  obtain ⟨s0, hs0mem, hs0id, hs0st⟩ := hrow
  have hTmem : T ∈ (settlements.getIncomplete db).map (fun s => s.id) := by
    rw [← hs0id]
    exact List.mem_map_of_mem _ (mem_getIncomplete hs0mem hs0st)
  have hLnodup := getIncomplete_ids_nodup hsids
  obtain ⟨l1, l2, hL⟩ := List.append_of_mem hTmem
  rw [hL] at hLnodup
  have hTl1 : T ∉ l1 := fun hmem =>
    List.disjoint_of_nodup_append hLnodup hmem (List.mem_cons_self T l2)
  have hTl2 : T ∉ l2 := by
    have := (List.Nodup.of_append_right hLnodup)
    rw [List.nodup_cons] at this
    exact this.1
  unfold retryFailedSettlements
  rw [hL, retrySettlementsLoop_append]
  have Fpre := retrySettlementsLoop_sframe w now T l1 db
    (fun s hs hsT => hTl1 (hsT ▸ hs)) hpids
  have hstep : retrySettlementsLoop w now (retrySettlementsLoop w now db l1)
      (T :: l2) = retrySettlementsLoop w now
        (retryOneSettlement w (retrySettlementsLoop w now db l1) T now) l2 := rfl
  rw [hstep]
  have hfilters : payouts.getBySettlement (retrySettlementsLoop w now db l1) T =
      payouts.getBySettlement db T := by
    show (retrySettlementsLoop w now db l1).payouts.filter (bySid T) =
      db.payouts.filter (bySid T)
    exact Fpre.1
  rw [retryOneSettlement_triggers w _ T now (hfilters ▸ hex) (hfilters ▸ hall)]
  have hpidsT : ((triggerPayoutEmergencyStop (retrySettlementsLoop w now db l1) T
      "All payout retries exhausted").payouts.map (fun p => p.id)).Nodup := by
    show ((retrySettlementsLoop w now db l1).payouts.map (fun p => p.id)).Nodup
    rw [sframe_pids Fpre]
    exact hpids
  have Fpost := retrySettlementsLoop_sframe w now T l2
    (triggerPayoutEmergencyStop (retrySettlementsLoop w now db l1) T
      "All payout retries exhausted")
    (fun s hs hsT => hTl2 (hsT ▸ hs)) hpidsT
  refine ⟨Fpost.2.2.2 (trigger_flag _ T _), ?_, ?_⟩
  · obtain ⟨r, hrmem, hrid⟩ := trigger_row_exists (retrySettlementsLoop w now db l1)
      T "All payout retries exhausted" ⟨s0, by
        have h1 : s0 ∈ db.settlements.filter (fun s => decide (s.id = T)) :=
          List.mem_filter.mpr ⟨hs0mem, by simp [hs0id]⟩
        rw [← Fpre.2.2.1] at h1
        exact List.mem_of_mem_filter h1, hs0id⟩
    have h2 : r ∈ (triggerPayoutEmergencyStop (retrySettlementsLoop w now db l1) T
        "All payout retries exhausted").settlements.filter
        (fun s => decide (s.id = T)) :=
      List.mem_filter.mpr ⟨hrmem, by simp [hrid]⟩
    rw [← Fpost.2.2.1] at h2
    exact ⟨r, List.mem_of_mem_filter h2, hrid⟩
  · intro s hs hsid
    have h2 : s ∈ (retrySettlementsLoop w now
        (triggerPayoutEmergencyStop (retrySettlementsLoop w now db l1) T
          "All payout retries exhausted") l2).settlements.filter
        (fun s => decide (s.id = T)) :=
      List.mem_filter.mpr ⟨hs, by simp [hsid]⟩
    rw [Fpost.2.2.1] at h2
    exact trigger_marks_failed _ T _ s (List.mem_of_mem_filter h2) hsid

theorem retry_pass_exhausted_payouts_fail_settlement_witness :
    (retryFailedSettlements defaultChain c3Db 1000000).emergency_stopped = true ∧
    (∃ s ∈ (retryFailedSettlements defaultChain c3Db 1000000).settlements,
      s.id = 1) ∧
    (∀ s ∈ (retryFailedSettlements defaultChain c3Db 1000000).settlements,
      s.id = 1 → s.status = SettlementStatus.failed) :=
  retry_pass_exhausted_payouts_fail_settlement defaultChain c3Db 1000000 1
    (by decide) (by decide)
    ⟨c3Settlement, by decide, by decide, by decide⟩
    ⟨c3Payout, by decide, by decide, by decide⟩
    (by decide)

end DeWiz
